import Mathlib

/-
Verification of the direct DAG scheduler of the AdaptiveCpp runtime
(src/src/runtime/dag_direct_scheduler.cpp, with the Level Zero backend
stub src/src/runtime/ze/ze_backend.cpp).

The scheduler itself is embedded from the source.  Collaborator
components that the scheduler calls but whose implementation is not part
of the given sources (the dag_node lifecycle, the buffer data_region and
its region tracker, the backend registry, the executor and the
submission registry) are modelled from the specification; each such
definition carries a doc comment starting with `Modelled from the spec:`.
-/

namespace hipsycl

namespace rt

/-- Backend identifiers.  The sources use cuda, hip, omp, level_zero ...;
we keep a representative closed set including level_zero (needed for the
ze_backend stub). -/
inductive backend_id
  | omp
  | cuda
  | level_zero
deriving DecidableEq

/-- A device identifier: a backend plus a device index, mirroring
rt::device_id (backend plus id). -/
structure device_id where
  backend : backend_id
  dev_index : Nat
deriving DecidableEq

/-- 3-component index/range, mirroring sycl::id<3> / sycl::range<3>. -/
abbrev pt3 := Nat × Nat × Nat

/-- range::size, the total number of elements of a 3d range. -/
def size3 (r : pt3) : Nat := r.1 * r.2.1 * r.2.2

/-- range_store::rect: a pair of an offset (first) and a range (second),
exactly as used by the scheduler (`region.first`, `region.second`). -/
abbrev rect := pt3 × pt3

/-- Decidable membership of a point in a rect given by offset and range. -/
def point_in (offset range p : pt3) : Bool :=
  decide (offset.1 ≤ p.1 ∧ p.1 < offset.1 + range.1 ∧
    offset.2.1 ≤ p.2.1 ∧ p.2.1 < offset.2.1 + range.2.1 ∧
    offset.2.2 ≤ p.2.2 ∧ p.2.2 < offset.2.2 + range.2.2)

/-- All points of a rect, enumerated explicitly (finite ranges). -/
def rect_points (offset range : pt3) : List pt3 :=
  ((List.range range.1).map (fun x =>
    ((List.range range.2.1).map (fun y =>
      (List.range range.2.2).map (fun z =>
        (offset.1 + x, offset.2.1 + y, offset.2.2 + z)))).flatten)).flatten

/-- sycl access modes carried by buffer memory requirements. -/
inductive sycl_access_mode
  | read
  | write
  | read_write
  | discard_write
  | discard_read_write
deriving DecidableEq

/-- A buffer_memory_requirement: a reference to a data region, the access
mode, the accessed sub-rectangle (offset + range, get_access_offset3d /
get_access_range3d), and the device pointer bound by
initialize_device_data (none until bound). -/
structure buffer_mem_req where
  data_region_id : Nat
  mode : sycl_access_mode
  offset : pt3
  range : pt3
  bound_ptr : Option Nat
deriving DecidableEq

/-- rt::memory_location as constructed by the scheduler: a device, an
access offset and the data region (by id). -/
structure memory_location where
  device : device_id
  offset : pt3
  data_region_id : Nat
deriving DecidableEq

/-- The closed operation variant: kernel launch (with optional preferred
backend), explicit copy (memcpy_operation), buffer requirement, and a
requirement that is not a buffer memory requirement (so that
execute_if_buffer_requirement's triple test is represented). -/
inductive operation
  | kernel (preferred_backend : Option backend_id)
  | memcpy (src : memory_location) (dest : memory_location) (num_elements : pt3)
  | buffer_req (br : buffer_mem_req)
  | other_requirement
deriving DecidableEq

/-- operation::is_requirement. -/
def is_requirement : operation → Bool
  | .buffer_req _ => true
  | .other_requirement => true
  | _ => false

/-- operation::is_data_transfer (true for memcpy_operation). -/
def is_data_transfer : operation → Bool
  | .memcpy _ _ _ => true
  | _ => false

/-- memory_requirement / buffer_memory_requirement test chain of
execute_if_buffer_requirement: yields the buffer requirement payload when
the operation is a buffer memory requirement. -/
def as_buffer_requirement : operation → Option buffer_mem_req
  | .buffer_req br => some br
  | _ => none

/-- operation::has_preferred_backend.  Kernels may carry a preferred
backend hint; Modelled from the spec for copies: step 4c says "select an
executor (operation's preferred backend if present, else D's default
backend)" and we take synthesized copies to carry no preference. -/
def has_preferred_backend : operation → Option backend_id
  | .kernel pb => pb
  | _ => none

/-- Modelled from the spec: the DAG node lifecycle states
`created → assigned → submitted → (complete | cancelled)` (dag_node is
declared outside the given sources). -/
inductive node_state
  | created
  | assigned
  | submitted
  | complete
  | cancelled
deriving DecidableEq

/-- Modelled from the spec: a node's completion event is either still
pending (operation enqueued, not yet finished) or immediately ready (the
pre-completed / virtual event). -/
inductive node_event
  | pending
  | ready
deriving DecidableEq

/-- Modelled from the spec: a DAG node wraps one operation, references
its requirement nodes (by id, in order), carries an optional explicit
device-binding hint, lazily assigned device and executor, a lifecycle
state, an optional completion event, and whether it was virtually
submitted. -/
structure dag_node where
  operation : operation
  requirements : List Nat
  bind_hint : Option device_id
  assigned_device : Option device_id
  assigned_executor : Option Nat
  state : node_state
  event : Option node_event
  is_virtual : Bool
deriving DecidableEq

/-- Modelled from the spec: a node counts as submitted once it has left
the created/assigned phase (submitted, complete and cancelled nodes all
answer true to is_submitted). -/
def state_is_submitted : node_state → Bool
  | .created => false
  | .assigned => false
  | .submitted => true
  | .complete => true
  | .cancelled => true

/-- dag_node::is_complete. -/
def node_is_complete (n : dag_node) : Bool := n.state = node_state.complete

/-- Modelled from the spec: cancellation is only meaningful for nodes not
yet handed to an executor, and re-entering a terminal state is a no-op;
cancel therefore sets the state to cancelled only on a not-yet-submitted
node. -/
def cancel_node (n : dag_node) : dag_node :=
  if state_is_submitted n.state then n else { n with state := node_state.cancelled }

/-- Modelled from the spec: mark a requirement virtually submitted with
an immediately-ready event so dependents never block on it; a no-op on a
node that is already submitted or terminal. -/
def mark_virtually_submitted (n : dag_node) : dag_node :=
  if state_is_submitted n.state then n
  else { n with
          state := node_state.submitted
          event := some node_event.ready
          is_virtual := true }

/-- Modelled from the spec: dag_node::assign_to_device records the device
and moves a freshly created node into the assigned phase. -/
def assign_to_device (n : dag_node) (dev : device_id) : dag_node :=
  { n with assigned_device := some dev,
           state := if n.state = node_state.created then node_state.assigned else n.state }

/-- dag_node::assign_to_executor. -/
def assign_to_executor (n : dag_node) (e : Nat) : dag_node :=
  { n with assigned_executor := some e }

/-- Modelled from the spec: the effect of executor submit_directly on the
node itself: the node is enqueued, so it becomes submitted and obtains a
(pending) completion event; terminal states are not re-entered. -/
def mark_submitted (n : dag_node) : dag_node :=
  if n.state = node_state.complete ∨ n.state = node_state.cancelled then n
  else { n with state := node_state.submitted, event := some node_event.pending }

/-- Modelled from the spec: a Data Region owns one logical buffer: its
extent (get_num_elements), element size, the lazy per-device allocation
map, and its region tracker, represented as the per-device valid point
set. -/
structure data_region where
  num_elements : pt3
  element_size : Nat
  allocations : device_id → Option Nat
  valid : device_id → pt3 → Bool

/-- data_region::has_allocation. -/
def has_allocation (r : data_region) (dev : device_id) : Bool :=
  (r.allocations dev).isSome

/-- data_region::add_empty_allocation: registers an externally allocated
pointer for a device. -/
def add_empty_allocation (r : data_region) (dev : device_id) (ptr : Nat) : data_region :=
  { r with allocations := fun d => if d = dev then some ptr else r.allocations d }

/-- data_region::get_memory: the pointer registered for a device. -/
def get_memory (r : data_region) (dev : device_id) : Option Nat :=
  r.allocations dev

/-- Modelled from the spec: get_outdated_regions returns the complement
of the device's valid set within the requested rectangle, decomposed here
into unit rects (one per uncovered point). -/
def get_outdated_regions (r : data_region) (dev : device_id)
    (offset range : pt3) : List rect :=
  ((rect_points offset range).filter (fun p => !(r.valid dev p))).map
    (fun p => (p, ((1, 1, 1) : pt3)))

/-- Modelled from the spec: get_update_source_candidates returns, in
device-registration order, the devices other than the target whose valid
coverage contains the whole rectangle, paired with the covering rect. -/
def get_update_source_candidates (devices : List device_id) (r : data_region)
    (target : device_id) (rc : rect) : List (device_id × rect) :=
  (devices.filter (fun d =>
    if d = target then false else (rect_points rc.1 rc.2).all (r.valid d))).map
    (fun d => (d, rc))

/-- Modelled from the spec: mark_range_valid adds coverage on one device
and does not touch other devices. -/
def mark_range_valid (r : data_region) (dev : device_id)
    (offset range : pt3) : data_region :=
  { r with valid := fun d p =>
      r.valid d p || (decide (d = dev) && point_in offset range p) }

/-- Modelled from the spec: mark_range_current adds coverage on the
device and removes the rectangle from every other device's valid set (the
sole coherence/invalidation rule). -/
def mark_range_current (r : data_region) (dev : device_id)
    (offset range : pt3) : data_region :=
  { r with valid := fun d p =>
      if d = dev then r.valid d p || point_in offset range p
      else r.valid d p && !(point_in offset range p) }

/-- Error classification, following rt::error_type (runtime_error is the
default of error_info when no type is given). -/
inductive error_type
  | runtime_error
  | memory_allocation_error
  | feature_not_supported
deriving DecidableEq

/-- rt::error_info: a message plus an error type. -/
structure error_info where
  message : String
  etype : error_type
deriving DecidableEq

/-- rt::result: success, or an error carrying its info. -/
inductive result
  | success
  | err (e : error_info)
deriving DecidableEq

/-- result::is_success. -/
def is_success : result → Bool
  | .success => true
  | .err _ => false

/-- One record of a call to backend_executor::submit_directly: the
executor, the node handed over, the operation, and the explicit
predecessor list passed along. -/
structure dispatch_record where
  executor : Nat
  node : Nat
  op : operation
  preds : List Nat
deriving DecidableEq

/-- The observable runtime state threaded through the scheduler: the node
store, the data regions, the process-wide error sink, the log of executor
dispatches, the log of backend allocation requests
(device, alignment, bytes), and the submission registry. -/
structure scheduler_state where
  nodes : Nat → dag_node
  regions : Nat → data_region
  errors : List error_info
  dispatched : List dispatch_record
  alloc_requests : List (device_id × Nat × Nat)
  registry : List Nat

/-- Modelled from the spec: the ambient runtime environment:
application::get_backend(b).get_executor(dev) (a null pointer is none),
get_backend(dev.backend).get_allocator(dev)->allocate(align, bytes) (a
null result is none), and the devices in registration order used for
update-source candidates. -/
structure runtime_env where
  get_executor : backend_id → device_id → Option Nat
  allocate : device_id → Nat → Nat → Option Nat
  devices : List device_id

/-- ze_backend::get_executor from src/src/runtime/ze/ze_backend.cpp:
it returns nullptr for every device. -/
def ze_get_executor (_dev : device_id) : Option Nat := none

/-- ze_backend::get_allocator from src/src/runtime/ze/ze_backend.cpp:
it returns nullptr for every device. -/
def ze_get_allocator (_dev : device_id) : Option Nat := none

/-- Update one node of the store. -/
def update_node (s : scheduler_state) (i : Nat) (f : dag_node → dag_node) :
    scheduler_state :=
  { s with nodes := fun k => if k = i then f (s.nodes k) else s.nodes k }

/-- Update one data region of the store. -/
def update_region (s : scheduler_state) (i : Nat) (f : data_region → data_region) :
    scheduler_state :=
  { s with regions := fun k => if k = i then f (s.regions k) else s.regions k }

/-- register_error(info): append to the process-wide error sink. -/
def register_error (s : scheduler_state) (e : error_info) : scheduler_state :=
  { s with errors := s.errors ++ [e] }

/-- register_error(result): register the info carried by a failed result. -/
def register_error_result (s : scheduler_state) : result → scheduler_state
  | .success => s
  | .err e => register_error s e

/-- Modelled from the spec: application::dag().register_submitted_ops —
append the node to the process-wide Submission Registry. -/
def register_submitted (s : scheduler_state) (nid : Nat) : scheduler_state :=
  { s with registry := s.registry ++ [nid] }

/-- std::unique on a sorted list: drop adjacent duplicates, keeping the
first element of each run. -/
def unique_adjacent : List Nat → List Nat
  | [] => []
  | [a] => [a]
  | a :: b :: rest =>
    if a = b then unique_adjacent (b :: rest) else a :: unique_adjacent (b :: rest)

/-- The loop body of abort_submission: cancel a requirement node when it
is not yet submitted. -/
def cancel_unsubmitted (s : scheduler_state) (rid : Nat) : scheduler_state :=
  if state_is_submitted ((s.nodes rid).state) then s
  else update_node s rid cancel_node

/-- abort_submission (dag_direct_scheduler.cpp, lines 45-52): cancel every
not-yet-submitted requirement of the node, then cancel the node itself. -/
def abort_submission (s : scheduler_state) (nid : Nat) : scheduler_state :=
  let s1 := (s.nodes nid).requirements.foldl cancel_unsubmitted s
  update_node s1 nid cancel_node

/-- assign_devices_or_default (lines 66-74): bind the node to its own
device hint when present, else to the default device. -/
def assign_devices_or_default (s : scheduler_state) (rid : Nat)
    (default_device : device_id) : scheduler_state :=
  match (s.nodes rid).bind_hint with
  | none => update_node s rid (fun n => assign_to_device n default_device)
  | some d => update_node s rid (fun n => assign_to_device n d)

/-- A fallback device for reading a not-yet-assigned device field (all
scheduler paths assign the device before reading it). -/
def fallback_device : device_id := ⟨backend_id.omp, 0⟩

/-- initialize_memory_access (lines 77-86): bind the device pointer of the
data region on the target device into the requirement's operation. -/
def initialize_memory_access (s : scheduler_state) (rid : Nat)
    (target : device_id) : scheduler_state :=
  update_node s rid (fun n =>
    match n.operation with
    | .buffer_req br =>
      let br1 := { br with bound_ptr := get_memory (s.regions br.data_region_id) target }
      { n with operation := operation.buffer_req br1 }
    | _ => n)

/-- The error registered when lazy allocation fails (lines 100-105). -/
def alloc_failed_info : error_info :=
  ⟨"dag_direct_scheduler: Lazy memory allocation has failed.",
   error_type.memory_allocation_error⟩

/-- The error registered when no update source exists (lines 137-142);
error_info with no explicit type defaults to runtime_error. -/
def no_data_source_info : error_info :=
  ⟨"dag_direct_scheduler: Could not obtain data update sources when trying to materialize implicit requirement",
   error_type.runtime_error⟩

/-- The error result made when an implicit requirement produces a
non-copy operation (lines 222-228). -/
def only_transfers_info : error_info :=
  ⟨"dag_direct_scheduler: only data transfers are supported as operations generated from implicit requirements.",
   error_type.feature_not_supported⟩

/-- The error registered when the node carries no device binding
(lines 267-270). -/
def not_bound_info : error_info :=
  ⟨"dag_direct_scheduler: Direct scheduler does not support DAG nodes not bound to devices.",
   error_type.feature_not_supported⟩

/-- The error registered for an unsubmitted non-requirement predecessor
(lines 285-288). -/
def multiple_unsubmitted_info : error_info :=
  ⟨"dag_direct_scheduler: Direct scheduler does not support processing multiple unsubmitted nodes",
   error_type.feature_not_supported⟩

/-- ensure_allocation_exists (lines 88-111): when the data region has no
allocation on the target device yet, request
get_num_elements().size() * get_element_size() bytes at alignment 128
from the backend allocator of the target device; a null pointer is a
registered memory_allocation_error returned as the result, otherwise the
pointer is registered with the data region. -/
def ensure_allocation_exists (env : runtime_env) (s : scheduler_state)
    (bmem_req : buffer_mem_req) (target_dev : device_id) :
    scheduler_state × result :=
  let reg := s.regions bmem_req.data_region_id
  if has_allocation reg target_dev then (s, result.success)
  else
    let num_bytes := size3 reg.num_elements * reg.element_size
    let s1 := { s with alloc_requests := s.alloc_requests ++ [(target_dev, 128, num_bytes)] }
    match env.allocate target_dev 128 num_bytes with
    | none => (register_error s1 alloc_failed_info, result.err alloc_failed_info)
    | some ptr =>
      (update_region s1 bmem_req.data_region_id
        (fun r => add_empty_allocation r target_dev ptr), result.success)

/-- The loop body of for_each_explicit_operation over the outdated
regions (lines 131-156): for each outdated rect, take the first update
source candidate (registering an error and cancelling the node when none
exists, which ends the iteration), synthesize the memcpy_operation and
hand it to the handler.  The handler returns none to model a crash of
the process (a null executor dereference further down). -/
def materialize_copies
    (handler : operation → scheduler_state × result → Option (scheduler_state × result))
    (env : runtime_env) (nid : Nat) (region_id : Nat) (target_device : device_id) :
    List rect → scheduler_state × result → Option (scheduler_state × result)
  | [], sr => some sr
  | region :: rest, (s, res) =>
    let update_sources :=
      get_update_source_candidates env.devices (s.regions region_id)
        target_device region
    match update_sources with
    | [] =>
      some (update_node (register_error s no_data_source_info) nid cancel_node, res)
    | (src_dev, src_rect) :: _ =>
      let src : memory_location :=
        ⟨src_dev, src_rect.1, region_id⟩
      let dest : memory_location :=
        ⟨target_device, region.1, region_id⟩
      let op := operation.memcpy src dest region.2
      match handler op (s, res) with
      | none => none
      | some sr1 => materialize_copies handler env nid region_id target_device rest sr1

/-- for_each_explicit_operation (lines 113-159): nothing for an already
submitted node; the node's own operation if it is not a requirement; for
a buffer requirement, compute the outdated regions on the assigned device
and materialize one copy per outdated region. -/
def for_each_explicit_operation
    (handler : operation → scheduler_state × result → Option (scheduler_state × result))
    (env : runtime_env) (nid : Nat) (sr : scheduler_state × result) :
    Option (scheduler_state × result) :=
  let s := sr.1
  let n := s.nodes nid
  if state_is_submitted n.state then some sr
  else if !(is_requirement n.operation) then handler n.operation sr
  else
    match as_buffer_requirement n.operation with
    | none => some sr
    | some br =>
      let target_device := n.assigned_device.getD fallback_device
      let outdated_regions :=
        get_outdated_regions (s.regions br.data_region_id) target_device
          br.offset br.range
      materialize_copies handler env nid br.data_region_id target_device
        outdated_regions sr

/-- select_executor (lines 161-171): use the operation's preferred
backend when present, else the backend of the node's assigned device; the
executor lookup may yield a null pointer (none). -/
def select_executor (env : runtime_env) (s : scheduler_state) (nid : Nat)
    (op : operation) : Option Nat :=
  let dev := (s.nodes nid).assigned_device.getD fallback_device
  match has_preferred_backend op with
  | some b => env.get_executor b dev
  | none => env.get_executor dev.backend dev

/-- The anonymous-namespace submit helper (lines 173-193): collect the
node's requirement nodes, remove the complete ones, sort and drop
duplicates, assign the executor and hand the operation over via
submit_directly.  A null executor (none) is dereferenced by the source,
modelled as a crash (none). -/
def rt_submit (executor : Option Nat) (nid : Nat) (op : operation)
    (s : scheduler_state) : Option scheduler_state :=
  let reqs0 := (s.nodes nid).requirements
  let reqs1 := reqs0.filter (fun r => !(node_is_complete (s.nodes r)))
  let reqs2 := List.insertionSort (fun a b => a ≤ b) reqs1
  let reqs3 := unique_adjacent reqs2
  match executor with
  | none => none
  | some e =>
    let s1 := update_node s nid (fun n => assign_to_executor n e)
    let s2 := { s1 with dispatched := s1.dispatched ++ [⟨e, nid, op, reqs3⟩] }
    some (update_node s2 nid mark_submitted)

/-- The handler installed by submit_requirement (lines 221-235): a
non-copy operation turns the local result into a feature_not_supported
error; a copy is dispatched through the selected executor. -/
def submit_req_handler (env : runtime_env) (rid : Nat) (op : operation)
    (sr : scheduler_state × result) : Option (scheduler_state × result) :=
  if !(is_data_transfer op) then
    some (sr.1, result.err only_transfers_info)
  else
    let executor := select_executor env sr.1 rid op
    match rt_submit executor rid op sr.1 with
    | none => none
    | some s1 => some (s1, sr.2)

/-- submit_requirement (lines 195-261). -/
def submit_requirement (env : runtime_env) (s : scheduler_state) (rid : Nat) :
    Option (scheduler_state × result) :=
  let n := s.nodes rid
  if !(is_requirement n.operation) || state_is_submitted n.state then
    some (s, result.success)
  else
    let access_mode := match as_buffer_requirement n.operation with
      | some br => br.mode
      | none => sycl_access_mode.read_write
    let sr1 := match as_buffer_requirement n.operation with
      | some br => ensure_allocation_exists env s br (n.assigned_device.getD fallback_device)
      | none => (s, result.success)
    if !(is_success sr1.2) then some sr1
    else
      let s2 := match as_buffer_requirement n.operation with
        | some _ => initialize_memory_access sr1.1 rid (n.assigned_device.getD fallback_device)
        | none => sr1.1
      let step3 :=
        if access_mode ≠ sycl_access_mode.discard_write ∧
           access_mode ≠ sycl_access_mode.discard_read_write then
          for_each_explicit_operation (submit_req_handler env rid) env rid
            (s2, result.success)
        else some (s2, result.success)
      match step3 with
      | none => none
      | some (s3, res3) =>
        if !(is_success res3) then some (s3, res3)
        else
          if (s3.nodes rid).event = none then
            some (update_node s3 rid mark_virtually_submitted, result.success)
          else
            match as_buffer_requirement n.operation with
            | some br =>
              if access_mode = sycl_access_mode.read then
                some (update_region s3 br.data_region_id
                  (fun r => mark_range_valid r (n.assigned_device.getD fallback_device)
                    br.offset br.range), result.success)
              else
                some (update_region s3 br.data_region_id
                  (fun r => mark_range_current r (n.assigned_device.getD fallback_device)
                    br.offset br.range), result.success)
            | none => some (s3, result.success)

/-- The requirement loop of dag_direct_scheduler::submit (lines 282-301):
an unsubmitted non-requirement predecessor aborts the submission with a
feature_not_supported error; a requirement is resolved, a failed
resolution result is registered and aborts.  The Bool of the returned
pair records whether the submission was aborted. -/
def process_requirements (env : runtime_env) (nid : Nat) :
    List Nat → scheduler_state → Option (scheduler_state × Bool)
  | [], s => some (s, false)
  | rid :: rest, s =>
    if !(is_requirement ((s.nodes rid).operation)) then
      if !(state_is_submitted ((s.nodes rid).state)) then
        some (abort_submission (register_error s multiple_unsubmitted_info) nid, true)
      else process_requirements env nid rest s
    else
      match submit_requirement env s rid with
      | none => none
      | some (s1, res) =>
        if is_success res then process_requirements env nid rest s1
        else some (abort_submission (register_error_result s1 res) nid, true)

/-- The device assignment phase of dag_direct_scheduler::submit
(lines 275-280): assign the node to its hint device, then default every
requirement lacking its own binding to that device. -/
def assign_phase (s : scheduler_state) (nid : Nat) (target_device : device_id) :
    scheduler_state :=
  let s1 := update_node s nid (fun n => assign_to_device n target_device)
  ((s1.nodes nid).requirements).foldl
    (fun acc rid => assign_devices_or_default acc rid target_device) s1

/-- dag_direct_scheduler::submit (lines 264-321), with the returned Bool
recording whether the submission was aborted by an early return and none
modelling a crash (null executor dereference). -/
def dag_submit_core (env : runtime_env) (nid : Nat) (s : scheduler_state) :
    Option (scheduler_state × Bool) :=
  match (s.nodes nid).bind_hint with
  | none =>
    some (abort_submission (register_error s not_bound_info) nid, true)
  | some target_device =>
    let s2 := assign_phase s nid target_device
    match process_requirements env nid ((s2.nodes nid).requirements) s2 with
    | none => none
    | some (s3, true) => some (s3, true)
    | some (s3, false) =>
      if is_requirement ((s3.nodes nid).operation) then
        match submit_requirement env s3 nid with
        | none => none
        | some (s4, res) =>
          if is_success res then some (register_submitted s4 nid, false)
          else some (abort_submission (register_error_result s4 res) nid, true)
      else
        let exec := select_executor env s3 nid ((s3.nodes nid).operation)
        match rt_submit exec nid ((s3.nodes nid).operation) s3 with
        | none => none
        | some s4 => some (register_submitted s4 nid, false)

/-- dag_direct_scheduler::submit, observable result: the final state, or
none when the process crashed. -/
def dag_direct_scheduler_submit (env : runtime_env) (nid : Nat)
    (s : scheduler_state) : Option scheduler_state :=
  (dag_submit_core env nid s).map (fun x => x.1)

/-! Helper lemmas about the predecessor compression of rt::submit. -/

theorem mem_unique_adjacent (x : Nat) :
    ∀ l : List Nat, x ∈ unique_adjacent l ↔ x ∈ l
  | [] => by simp [unique_adjacent]
  | [a] => by simp [unique_adjacent]
  | a :: b :: rest => by
    by_cases hab : a = b
    · subst hab
      rw [unique_adjacent, if_pos rfl, mem_unique_adjacent x (a :: rest)]
      simp
    · rw [unique_adjacent, if_neg hab]
      simp only [List.mem_cons, mem_unique_adjacent x (b :: rest)]

theorem unique_adjacent_nodup :
    ∀ l : List Nat, l.Sorted (fun a b => a ≤ b) → (unique_adjacent l).Nodup
  | [] => fun _ => by simp [unique_adjacent]
  | [a] => fun _ => by simp [unique_adjacent]
  | a :: b :: rest => fun h => by
    have htail : (b :: rest).Sorted (fun a b => a ≤ b) := h.of_cons
    by_cases hab : a = b
    · subst hab
      rw [unique_adjacent, if_pos rfl]
      exact unique_adjacent_nodup (a :: rest) htail
    · rw [unique_adjacent, if_neg hab]
      have hle : a ≤ b := (List.sorted_cons.mp h).1 b (by simp)
      refine List.nodup_cons.mpr ⟨?_, unique_adjacent_nodup (b :: rest) htail⟩
      intro hmem
      have hxb : a ∈ b :: rest := (mem_unique_adjacent a (b :: rest)).mp hmem
      have hba : b ≤ a := by
        rcases List.mem_cons.mp hxb with h1 | h1
        · omega
        · exact (List.sorted_cons.mp htail).1 a h1
      omega

/-- Claim C4: for every node handed to an executor, the explicit
predecessor list passed along contains each requirement node at most once
(even when the node lists the same requirement several times), contains
no already-complete predecessor, and contains exactly the not-yet-complete
listed requirement nodes. -/
theorem C4_predecessor_compression (s : scheduler_state) (nid : Nat)
    (op : operation) (e : Nat) :
    ∃ s' preds, rt_submit (some e) nid op s = some s' ∧
      s'.dispatched = s.dispatched ++ [⟨e, nid, op, preds⟩] ∧
      preds.Nodup ∧
      (∀ r, r ∈ preds ↔
        r ∈ (s.nodes nid).requirements ∧
          (s.nodes r).state ≠ node_state.complete) := by
  refine ⟨_, _, rfl, rfl, ?_, ?_⟩
  · exact unique_adjacent_nodup _
      (List.sorted_insertionSort (fun a b => a ≤ b) _)
  · intro r
    rw [mem_unique_adjacent, List.mem_insertionSort, List.mem_filter]
    simp [node_is_complete]

/-! Helper lemmas about state updates, cancellation and abort_submission. -/

theorem update_node_nodes_same (s : scheduler_state) (i : Nat)
    (f : dag_node → dag_node) : (update_node s i f).nodes i = f (s.nodes i) := by
  simp [update_node]

theorem update_node_nodes_other (s : scheduler_state) (i : Nat)
    (f : dag_node → dag_node) (k : Nat) (h : k ≠ i) :
    (update_node s i f).nodes k = s.nodes k := by
  simp [update_node, h]

theorem cancel_node_of_cancelled (n : dag_node)
    (h : n.state = node_state.cancelled) : cancel_node n = n := by
  have hc : state_is_submitted n.state = true := by rw [h]; rfl
  rw [cancel_node, if_pos hc]

theorem cancel_node_state_of_unsubmitted (n : dag_node)
    (h : state_is_submitted n.state = false) :
    (cancel_node n).state = node_state.cancelled := by
  have hc : ¬ (state_is_submitted n.state = true) := by simp [h]
  rw [cancel_node, if_neg hc]

theorem cancel_node_idem (n : dag_node) :
    cancel_node (cancel_node n) = cancel_node n := by
  by_cases h : state_is_submitted n.state = true
  · have e : cancel_node n = n := by rw [cancel_node, if_pos h]
    rw [e]
    exact e
  · have hs : (cancel_node n).state = node_state.cancelled :=
      cancel_node_state_of_unsubmitted n (by simpa using h)
    exact cancel_node_of_cancelled _ hs

theorem cancel_node_assigned_device (n : dag_node) :
    (cancel_node n).assigned_device = n.assigned_device := by
  unfold cancel_node
  split <;> rfl

theorem cancel_fold_preserves (l : List Nat) :
    ∀ s : scheduler_state,
      (l.foldl cancel_unsubmitted s).errors = s.errors ∧
      (l.foldl cancel_unsubmitted s).regions = s.regions ∧
      (l.foldl cancel_unsubmitted s).dispatched = s.dispatched ∧
      (l.foldl cancel_unsubmitted s).alloc_requests = s.alloc_requests ∧
      (l.foldl cancel_unsubmitted s).registry = s.registry := by
  induction l with
  | nil => intro s; exact ⟨rfl, rfl, rfl, rfl, rfl⟩
  | cons a rest ih =>
    intro s
    have hstep : (cancel_unsubmitted s a).errors = s.errors ∧
        (cancel_unsubmitted s a).regions = s.regions ∧
        (cancel_unsubmitted s a).dispatched = s.dispatched ∧
        (cancel_unsubmitted s a).alloc_requests = s.alloc_requests ∧
        (cancel_unsubmitted s a).registry = s.registry := by
      unfold cancel_unsubmitted update_node
      split <;> exact ⟨rfl, rfl, rfl, rfl, rfl⟩
    obtain ⟨g1, g2, g3, g4, g5⟩ := hstep
    obtain ⟨h1, h2, h3, h4, h5⟩ := ih (cancel_unsubmitted s a)
    simp only [List.foldl_cons]
    exact ⟨h1.trans g1, h2.trans g2, h3.trans g3, h4.trans g4, h5.trans g5⟩

theorem cancel_fold_nodes (l : List Nat) :
    ∀ (s : scheduler_state) (k : Nat),
      (l.foldl cancel_unsubmitted s).nodes k = s.nodes k ∨
      (l.foldl cancel_unsubmitted s).nodes k = cancel_node (s.nodes k) := by
  induction l with
  | nil => intro s k; exact Or.inl rfl
  | cons a rest ih =>
    intro s k
    simp only [List.foldl_cons]
    have hstep : (cancel_unsubmitted s a).nodes k = s.nodes k ∨
        (cancel_unsubmitted s a).nodes k = cancel_node (s.nodes k) := by
      unfold cancel_unsubmitted update_node
      split
      · exact Or.inl rfl
      · by_cases hk : k = a
        · right; simp [hk]
        · left; simp [hk]
    rcases ih (cancel_unsubmitted s a) k with h | h <;>
      rcases hstep with g | g
    · exact Or.inl (h.trans g)
    · exact Or.inr (h.trans g)
    · rw [h, g]; exact Or.inr rfl
    · rw [h, g, cancel_node_idem]; exact Or.inr rfl

theorem cancel_fold_keeps_cancelled (l : List Nat) :
    ∀ (s : scheduler_state) (r : Nat),
      (s.nodes r).state = node_state.cancelled →
      ((l.foldl cancel_unsubmitted s).nodes r).state = node_state.cancelled := by
  intro s r h
  rcases cancel_fold_nodes l s r with g | g
  · rw [g, h]
  · rw [g, cancel_node_of_cancelled _ h, h]

theorem cancel_fold_cancels (l : List Nat) :
    ∀ (s : scheduler_state) (r : Nat), r ∈ l →
      state_is_submitted ((s.nodes r).state) = false →
      ((l.foldl cancel_unsubmitted s).nodes r).state = node_state.cancelled := by
  induction l with
  | nil => intro s r hmem; exact absurd hmem (List.not_mem_nil r)
  | cons a rest ih =>
    intro s r hmem hsub
    simp only [List.foldl_cons]
    rcases List.mem_cons.mp hmem with heq | hmem'
    · subst heq
      have hstep : ((cancel_unsubmitted s r).nodes r).state = node_state.cancelled := by
        rw [cancel_unsubmitted, if_neg (by simp [hsub]), update_node_nodes_same]
        exact cancel_node_state_of_unsubmitted _ hsub
      exact cancel_fold_keeps_cancelled rest _ r hstep
    · have hfork : (cancel_unsubmitted s a).nodes r = s.nodes r ∨
          (cancel_unsubmitted s a).nodes r = cancel_node (s.nodes r) := by
        unfold cancel_unsubmitted
        split
        · exact Or.inl rfl
        · by_cases hk : r = a
          · subst hk; rw [update_node_nodes_same]; exact Or.inr rfl
          · rw [update_node_nodes_other _ _ _ _ hk]; exact Or.inl rfl
      rcases hfork with hra | hra
      · exact ih _ r hmem' (by rw [hra]; exact hsub)
      · have hcanc : ((cancel_unsubmitted s a).nodes r).state = node_state.cancelled := by
          rw [hra]; exact cancel_node_state_of_unsubmitted _ hsub
        exact cancel_fold_keeps_cancelled rest _ r hcanc

theorem abort_submission_preserves (s : scheduler_state) (nid : Nat) :
    (abort_submission s nid).errors = s.errors ∧
    (abort_submission s nid).regions = s.regions ∧
    (abort_submission s nid).dispatched = s.dispatched ∧
    (abort_submission s nid).alloc_requests = s.alloc_requests ∧
    (abort_submission s nid).registry = s.registry := by
  unfold abort_submission
  obtain ⟨h1, h2, h3, h4, h5⟩ :=
    cancel_fold_preserves ((s.nodes nid).requirements) s
  exact ⟨h1, h2, h3, h4, h5⟩

theorem abort_submission_cancels_node (s : scheduler_state) (nid : Nat)
    (h : state_is_submitted ((s.nodes nid).state) = false) :
    ((abort_submission s nid).nodes nid).state = node_state.cancelled := by
  unfold abort_submission
  rw [update_node_nodes_same]
  rcases cancel_fold_nodes ((s.nodes nid).requirements) s nid with g | g
  · rw [g]; exact cancel_node_state_of_unsubmitted _ h
  · rw [g, cancel_node_idem]; exact cancel_node_state_of_unsubmitted _ h

theorem abort_submission_cancels_reqs (s : scheduler_state) (nid : Nat)
    (r : Nat) (hr : r ∈ (s.nodes nid).requirements)
    (h : state_is_submitted ((s.nodes r).state) = false) :
    ((abort_submission s nid).nodes r).state = node_state.cancelled := by
  unfold abort_submission
  have hfold := cancel_fold_cancels ((s.nodes nid).requirements) s r hr h
  by_cases hk : r = nid
  · subst hk
    rw [update_node_nodes_same, cancel_node_of_cancelled _ hfold]
    exact hfold
  · rw [update_node_nodes_other _ _ _ _ hk]
    exact hfold

theorem abort_submission_assigned_device (s : scheduler_state) (nid : Nat)
    (k : Nat) :
    ((abort_submission s nid).nodes k).assigned_device =
      (s.nodes k).assigned_device := by
  unfold abort_submission
  by_cases hk : k = nid <;>
    rcases cancel_fold_nodes ((s.nodes nid).requirements) s k with g | g
  · subst hk; rw [update_node_nodes_same, g, cancel_node_assigned_device]
  · subst hk
    rw [update_node_nodes_same, g, cancel_node_idem, cancel_node_assigned_device]
  · rw [update_node_nodes_other _ _ _ _ hk, g]
  · rw [update_node_nodes_other _ _ _ _ hk, g, cancel_node_assigned_device]

theorem cancel_node_event (n : dag_node) : (cancel_node n).event = n.event := by
  unfold cancel_node
  split <;> rfl

theorem mark_virtually_submitted_of_submitted (n : dag_node)
    (h : state_is_submitted n.state = true) : mark_virtually_submitted n = n := by
  rw [mark_virtually_submitted, if_pos h]

theorem initialize_memory_access_preserves (s : scheduler_state) (rid : Nat)
    (target : device_id) (k : Nat) :
    ((initialize_memory_access s rid target).nodes k).state = (s.nodes k).state ∧
    ((initialize_memory_access s rid target).nodes k).event = (s.nodes k).event ∧
    ((initialize_memory_access s rid target).nodes k).assigned_device =
      (s.nodes k).assigned_device ∧
    ((initialize_memory_access s rid target).nodes k).requirements =
      (s.nodes k).requirements := by
  unfold initialize_memory_access
  by_cases hk : k = rid
  · subst hk
    rw [update_node_nodes_same]
    cases hop : (s.nodes k).operation <;> simp
  · rw [update_node_nodes_other _ _ _ _ hk]
    exact ⟨rfl, rfl, rfl, rfl⟩

theorem initialize_memory_access_operation (s : scheduler_state) (rid : Nat)
    (target : device_id) (br : buffer_mem_req)
    (h : (s.nodes rid).operation = operation.buffer_req br) :
    ((initialize_memory_access s rid target).nodes rid).operation =
      operation.buffer_req
        ({ br with bound_ptr := get_memory (s.regions br.data_region_id) target }) := by
  unfold initialize_memory_access
  rw [update_node_nodes_same, h]

theorem initialize_memory_access_regions (s : scheduler_state) (rid : Nat)
    (target : device_id) :
    (initialize_memory_access s rid target).regions = s.regions := rfl

theorem register_error_nodes (s : scheduler_state) (e : error_info) :
    (register_error s e).nodes = s.nodes := rfl

/-! Concrete fixtures used by witnesses and counterexamples. -/

/-- An OpenMP device used in concrete scenarios. -/
def dev1 : device_id := ⟨backend_id.omp, 0⟩

/-- A second OpenMP device used in concrete scenarios. -/
def dev2 : device_id := ⟨backend_id.omp, 1⟩

/-- A Level Zero device, served by the ze_backend stub. -/
def ze_dev : device_id := ⟨backend_id.level_zero, 0⟩

/-- A concrete environment: working executors and allocator on the
OpenMP/CUDA backends, the ze_backend stub for Level Zero, two registered
devices. -/
def test_env : runtime_env :=
  { get_executor := fun b d =>
      match b with
      | backend_id.level_zero => ze_get_executor d
      | _ => some 1
    allocate := fun _ _ _ => some 777
    devices := [dev1, dev2] }

/-- A freshly created node with a kernel operation and no edges. -/
def blank_node : dag_node :=
  { operation := operation.kernel none
    requirements := []
    bind_hint := none
    assigned_device := none
    assigned_executor := none
    state := node_state.created
    event := none
    is_virtual := false }

/-- A data region of two elements that is valid nowhere but already
allocated on dev2. -/
def region_nowhere_valid : data_region :=
  { num_elements := (2, 1, 1)
    element_size := 4
    allocations := fun d => if d = dev2 then some 500 else none
    valid := fun _ _ => false }

/-- A data region of two elements fully valid on dev1 and allocated
everywhere. -/
def region_valid_on_dev1 : data_region :=
  { num_elements := (2, 1, 1)
    element_size := 4
    allocations := fun _ => some 500
    valid := fun d p => decide (d = dev1) && point_in (0, 0, 0) (2, 1, 1) p }

/-- Concrete state for the C1 counterexample: node 0 (kernel, bound to
dev2) lists requirement node 1, a read buffer requirement on a region
with no valid replica anywhere. -/
def state_c1 : scheduler_state :=
  { nodes := fun i =>
      if i = 0 then { blank_node with requirements := [1], bind_hint := some dev2 }
      else if i = 1 then
        { blank_node with operation :=
            operation.buffer_req ⟨0, sycl_access_mode.read, (0, 0, 0), (1, 1, 1), none⟩ }
      else blank_node
    regions := fun _ => region_nowhere_valid
    errors := []
    dispatched := []
    alloc_requests := []
    registry := [] }

/-- Counterexample to claim C1 as stated: with an outdated sub-rectangle
that has no update-source candidate, the data-source error is registered
and the requirement node (1) is cancelled, but the enclosing submission
is not cancelled — the submitted node (0) ends submitted, its own
operation is dispatched and it is registered with the submission
registry. -/
theorem C1_counterexample :
    (dag_direct_scheduler_submit test_env 0 state_c1).map
      (fun s' => ((s'.nodes 1).state, (s'.nodes 0).state,
        decide (no_data_source_info ∈ s'.errors), decide (0 ∈ s'.registry),
        s'.dispatched.length)) =
    some (node_state.cancelled, node_state.submitted, true, true, 1) := by
  decide

/-- Concrete state for the C1 witness: requirement node 1 alone, already
bound to dev2. -/
def state_c1w : scheduler_state :=
  { nodes := fun i =>
      if i = 1 then
        { blank_node with
            operation :=
              operation.buffer_req ⟨0, sycl_access_mode.read, (0, 0, 0), (1, 1, 1), none⟩
            assigned_device := some dev2 }
      else blank_node
    regions := fun _ => region_nowhere_valid
    errors := []
    dispatched := []
    alloc_requests := []
    registry := [] }

/-- Claim C2 (amended): a discard-write (or discard-read-write) buffer
requirement never triggers a copy, regardless of existing outdated
regions; it is marked virtually submitted with an immediately-ready event
and the region tracker is left unchanged — in particular the accessed
rectangle is not marked current on the target device. -/
theorem C2_amended_discard (env : runtime_env) (s : scheduler_state)
    (rid : Nat) (br : buffer_mem_req)
    (h_op : (s.nodes rid).operation = operation.buffer_req br)
    (h_mode : br.mode = sycl_access_mode.discard_write ∨
      br.mode = sycl_access_mode.discard_read_write)
    (h_state : state_is_submitted ((s.nodes rid).state) = false)
    (h_event : (s.nodes rid).event = none)
    (h_alloc : has_allocation (s.regions br.data_region_id)
        ((s.nodes rid).assigned_device.getD fallback_device) = true) :
    ∃ s', submit_requirement env s rid = some (s', result.success) ∧
      s'.dispatched = s.dispatched ∧
      s'.errors = s.errors ∧
      s'.regions = s.regions ∧
      s'.alloc_requests = s.alloc_requests ∧
      (s'.nodes rid).state = node_state.submitted ∧
      (s'.nodes rid).event = some node_event.ready ∧
      (s'.nodes rid).is_virtual = true := by
  have h_ensure : ensure_allocation_exists env s br
      ((s.nodes rid).assigned_device.getD fallback_device) = (s, result.success) := by
    unfold ensure_allocation_exists
    rw [if_pos h_alloc]
  have hs2 := initialize_memory_access_preserves s rid
    ((s.nodes rid).assigned_device.getD fallback_device) rid
  obtain ⟨hs2state, hs2event, _, _⟩ := hs2
  have hmvs : mark_virtually_submitted
      ((initialize_memory_access s rid
        ((s.nodes rid).assigned_device.getD fallback_device)).nodes rid) =
      { (initialize_memory_access s rid
          ((s.nodes rid).assigned_device.getD fallback_device)).nodes rid with
          state := node_state.submitted
          event := some node_event.ready
          is_virtual := true } := by
    rw [mark_virtually_submitted, if_neg]
    rw [hs2state]
    simp [h_state]
  simp only [submit_requirement, h_op, h_state, is_requirement,
    as_buffer_requirement, Bool.not_true, Bool.false_or, Bool.false_eq_true,
    if_false, h_ensure, is_success]
  rw [if_neg (by rcases h_mode with h | h <;> simp [h])]
  simp only [is_success, Bool.not_true, Bool.false_eq_true, if_false]
  rw [hs2event, h_event]
  simp only [if_pos rfl]
  refine ⟨_, rfl, rfl, rfl, rfl, rfl, ?_, ?_, ?_⟩ <;>
    rw [update_node_nodes_same, hmvs]

/-- Concrete state for the C2 counterexample and witness: node 1 is a
discard-write requirement over the whole region on dev2, while the region
is valid only on dev1 (so the accessed rectangle is fully outdated on
dev2). -/
def state_c2 : scheduler_state :=
  { nodes := fun i =>
      if i = 1 then
        { blank_node with
            operation := operation.buffer_req
              ⟨0, sycl_access_mode.discard_write, (0, 0, 0), (2, 1, 1), none⟩
            assigned_device := some dev2 }
      else blank_node
    regions := fun _ => region_valid_on_dev1
    errors := []
    dispatched := []
    alloc_requests := []
    registry := [] }

/-- Counterexample to claim C2 as stated: resolving the discard-write
requirement issues no copy (dispatch log stays empty) but does not mark
the accessed rectangle current on dev2: the tracker still reports the
point (0,0,0) as not valid on dev2; the requirement is virtually
submitted instead. -/
theorem C2_counterexample :
    (submit_requirement test_env state_c2 1).map
      (fun sr => (sr.2, sr.1.dispatched.length,
        (sr.1.regions 0).valid dev2 (0, 0, 0), (sr.1.nodes 1).is_virtual)) =
    some (result.success, 0, false, true) := by
  decide

/-- Witness for the amended C2 at a concrete input. -/
theorem C2_amended_discard_witness :
    ∃ s', submit_requirement test_env state_c2 1 = some (s', result.success) ∧
      s'.dispatched = state_c2.dispatched ∧
      s'.errors = state_c2.errors ∧
      s'.regions = state_c2.regions ∧
      s'.alloc_requests = state_c2.alloc_requests ∧
      (s'.nodes 1).state = node_state.submitted ∧
      (s'.nodes 1).event = some node_event.ready ∧
      (s'.nodes 1).is_virtual = true :=
  C2_amended_discard test_env state_c2 1
    ⟨0, sycl_access_mode.discard_write, (0, 0, 0), (2, 1, 1), none⟩
    (by decide) (Or.inl rfl) (by decide) (by decide) (by decide)

/-- Claim C9: lazy allocation requests from the backend allocator the
full logical buffer size (number of elements of the data region times its
element size) at alignment 128, independently of the accessed
sub-rectangle (offset, range, mode and bound pointer of the requirement
are irrelevant). -/
theorem C9_full_buffer_allocation (env : runtime_env) (s : scheduler_state)
    (br : buffer_mem_req) (target : device_id)
    (h_none : (s.regions br.data_region_id).allocations target = none) :
    (ensure_allocation_exists env s br target).1.alloc_requests =
      s.alloc_requests ++
        [(target, 128, size3 ((s.regions br.data_region_id).num_elements) *
          (s.regions br.data_region_id).element_size)] ∧
    (∀ off rng m bp,
      ensure_allocation_exists env s
        ({ br with offset := off, range := rng, mode := m, bound_ptr := bp })
        target =
      ensure_allocation_exists env s br target) := by
  constructor
  · unfold ensure_allocation_exists
    rw [if_neg (by simp [has_allocation, h_none])]
    cases halloc : env.allocate target 128
        (size3 ((s.regions br.data_region_id).num_elements) *
          (s.regions br.data_region_id).element_size) <;>
      simp [halloc, register_error, update_region]
  · intro off rng m bp
    rfl

/-- Concrete state for the C9 witness: one region, not yet allocated on
dev1. -/
def state_c9 : scheduler_state :=
  { nodes := fun _ => blank_node
    regions := fun _ => region_nowhere_valid
    errors := []
    dispatched := []
    alloc_requests := []
    registry := [] }

/-- Witness for C9 at a concrete input: a size-2 region of element size 4
yields an allocation request of 8 bytes at alignment 128 on dev1. -/
theorem C9_full_buffer_allocation_witness :
    (ensure_allocation_exists test_env state_c9
      ⟨0, sycl_access_mode.read, (0, 0, 0), (1, 1, 1), none⟩ dev1).1.alloc_requests =
      state_c9.alloc_requests ++
        [(dev1, 128, size3 ((state_c9.regions 0).num_elements) *
          (state_c9.regions 0).element_size)] ∧
    (∀ off rng m bp,
      ensure_allocation_exists test_env state_c9
        ({ (⟨0, sycl_access_mode.read, (0, 0, 0), (1, 1, 1), none⟩ : buffer_mem_req)
            with offset := off, range := rng, mode := m, bound_ptr := bp })
        dev1 =
      ensure_allocation_exists test_env state_c9
        ⟨0, sycl_access_mode.read, (0, 0, 0), (1, 1, 1), none⟩ dev1) :=
  C9_full_buffer_allocation test_env state_c9
    ⟨0, sycl_access_mode.read, (0, 0, 0), (1, 1, 1), none⟩ dev1 (by decide)

/-- Claim C7: allocation is caller-lazy and failure is fatal: nothing is
requested when the data region already has an allocation on the target
device; on first touch the backend allocator's pointer is registered with
the data region; a null pointer registers a memory_allocation_error which
is returned, with exactly one allocation request made (no retry); and a
requirement whose resolution returns an error makes the requirement loop
of submit register the error and abort the submission. -/
theorem C7_lazy_allocation (env : runtime_env) (s : scheduler_state)
    (br : buffer_mem_req) (target : device_id) :
    (has_allocation (s.regions br.data_region_id) target = true →
      ensure_allocation_exists env s br target = (s, result.success)) ∧
    (∀ p, (s.regions br.data_region_id).allocations target = none →
      env.allocate target 128 (size3 ((s.regions br.data_region_id).num_elements) *
        (s.regions br.data_region_id).element_size) = some p →
      (ensure_allocation_exists env s br target).2 = result.success ∧
      ((ensure_allocation_exists env s br target).1.regions
        br.data_region_id).allocations target = some p ∧
      (∀ k, k ≠ br.data_region_id →
        (ensure_allocation_exists env s br target).1.regions k = s.regions k) ∧
      (ensure_allocation_exists env s br target).1.nodes = s.nodes ∧
      (ensure_allocation_exists env s br target).1.errors = s.errors) ∧
    ((s.regions br.data_region_id).allocations target = none →
      env.allocate target 128 (size3 ((s.regions br.data_region_id).num_elements) *
        (s.regions br.data_region_id).element_size) = none →
      (ensure_allocation_exists env s br target).2 =
        result.err alloc_failed_info ∧
      (ensure_allocation_exists env s br target).1.errors =
        s.errors ++ [alloc_failed_info] ∧
      (ensure_allocation_exists env s br target).1.alloc_requests =
        s.alloc_requests ++
          [(target, 128, size3 ((s.regions br.data_region_id).num_elements) *
            (s.regions br.data_region_id).element_size)] ∧
      (ensure_allocation_exists env s br target).1.regions = s.regions) ∧
    (∀ (nid rid : Nat) (rest : List Nat) (s0 s1 : scheduler_state)
      (e : error_info),
      submit_requirement env s0 rid = some (s1, result.err e) →
      process_requirements env nid (rid :: rest) s0 =
        some (abort_submission (register_error s1 e) nid, true)) := by
  refine ⟨?_, ?_, ?_, ?_⟩
  · intro h
    unfold ensure_allocation_exists
    rw [if_pos h]
  · intro p hnone halloc
    have heq : ensure_allocation_exists env s br target =
        (update_region
          { s with alloc_requests := s.alloc_requests ++
              [(target, 128, size3 ((s.regions br.data_region_id).num_elements) *
                (s.regions br.data_region_id).element_size)] }
          br.data_region_id (fun r => add_empty_allocation r target p),
         result.success) := by
      unfold ensure_allocation_exists
      rw [if_neg (by simp [has_allocation, hnone])]
      simp only [halloc]
    rw [heq]
    refine ⟨rfl, ?_, ?_, rfl, rfl⟩
    · simp [update_region, add_empty_allocation]
    · intro k hk
      simp [update_region, hk]
  · intro hnone halloc
    have heq : ensure_allocation_exists env s br target =
        (register_error
          { s with alloc_requests := s.alloc_requests ++
              [(target, 128, size3 ((s.regions br.data_region_id).num_elements) *
                (s.regions br.data_region_id).element_size)] }
          alloc_failed_info,
         result.err alloc_failed_info) := by
      unfold ensure_allocation_exists
      rw [if_neg (by simp [has_allocation, hnone])]
      simp only [halloc]
    rw [heq]
    exact ⟨rfl, rfl, rfl, rfl⟩
  · intro nid rid rest s0 s1 e hsub
    have hreq : is_requirement ((s0.nodes rid).operation) = true := by
      by_contra hfalse
      simp only [Bool.not_eq_true] at hfalse
      have hresolved : submit_requirement env s0 rid = some (s0, result.success) := by
        unfold submit_requirement
        rw [if_pos]
        rw [hfalse]
        simp
      rw [hresolved] at hsub
      simp at hsub
    unfold process_requirements
    rw [hreq]
    simp only [Bool.not_true, Bool.false_eq_true, if_false]
    rw [hsub]
    rfl

/-- Concrete state for the C7 witness: the region is already allocated
on dev2. -/
def state_c7w : scheduler_state :=
  { nodes := fun _ => blank_node
    regions := fun _ => region_nowhere_valid
    errors := []
    dispatched := []
    alloc_requests := []
    registry := [] }

/-- Witness for C7 at a concrete input: with an allocation already
present on dev2, ensure_allocation_exists is a no-op success. -/
theorem C7_lazy_allocation_witness :
    ensure_allocation_exists test_env state_c7w
      ⟨0, sycl_access_mode.read, (0, 0, 0), (1, 1, 1), none⟩ dev2 =
      (state_c7w, result.success) :=
  (C7_lazy_allocation test_env state_c7w
    ⟨0, sycl_access_mode.read, (0, 0, 0), (1, 1, 1), none⟩ dev2).1 (by decide)


/-- Concrete state for C8: node 0 is a kernel bound to the Level Zero
device. -/
def state_c8 : scheduler_state :=
  { nodes := fun i =>
      if i = 0 then { blank_node with bind_hint := some ze_dev }
      else blank_node
    regions := fun _ => region_nowhere_valid
    errors := []
    dispatched := []
    alloc_requests := []
    registry := [] }

/-- Claim C8 evaluated on the code: ze_backend::get_executor yields a
null executor, and submitting a node bound to a Level Zero device makes
the scheduler dereference that null pointer (modelled as the crashed
outcome none) instead of surfacing a feature_not_supported error; the
selection rule itself (preferred backend if present, else the assigned
device's backend) is what routes the lookup to the ze backend. -/
theorem C8_null_executor_crash :
    ze_get_executor ze_dev = none ∧
    select_executor test_env (assign_phase state_c8 0 ze_dev) 0
      (operation.kernel none) = none ∧
    dag_direct_scheduler_submit test_env 0 state_c8 = none ∧
    select_executor test_env (assign_phase state_c8 0 ze_dev) 0
      (operation.kernel (some backend_id.omp)) = some 1 := by
  refine ⟨rfl, by decide, by rfl, by decide⟩

/-! Provenance lemmas: which dispatch records and registry entries each
scheduler phase can add. -/

theorem register_error_result_preserves (s : scheduler_state) (res : result) :
    (register_error_result s res).registry = s.registry ∧
    (register_error_result s res).dispatched = s.dispatched ∧
    (register_error_result s res).nodes = s.nodes ∧
    (register_error_result s res).regions = s.regions := by
  cases res <;> exact ⟨rfl, rfl, rfl, rfl⟩

theorem rt_submit_provenance (exec : Option Nat) (nid : Nat) (op : operation)
    (s s1 : scheduler_state) (h : rt_submit exec nid op s = some s1) :
    s1.registry = s.registry ∧
    (∀ rec ∈ s1.dispatched, rec ∈ s.dispatched ∨ rec.node = nid) := by
  cases exec with
  | none => exact absurd h (by simp [rt_submit])
  | some e =>
    have hs1 := Option.some.inj h
    constructor
    · rw [← hs1]; rfl
    · intro rec hrec
      rw [← hs1] at hrec
      have hrec' : rec ∈ s.dispatched ++
          [(⟨e, nid, op, unique_adjacent (List.insertionSort (fun a b => a ≤ b)
            ((s.nodes nid).requirements.filter
              (fun r => !(node_is_complete (s.nodes r)))))⟩ : dispatch_record)] :=
        hrec
      rcases List.mem_append.mp hrec' with h1 | h1
      · exact Or.inl h1
      · right
        have : rec = ⟨e, nid, op, unique_adjacent (List.insertionSort (fun a b => a ≤ b)
            ((s.nodes nid).requirements.filter
              (fun r => !(node_is_complete (s.nodes r)))))⟩ := by
          simpa using h1
        rw [this]

theorem submit_req_handler_provenance (env : runtime_env) (rid : Nat)
    (op : operation) (sr out : scheduler_state × result)
    (h : submit_req_handler env rid op sr = some out) :
    out.1.registry = sr.1.registry ∧
    (∀ rec ∈ out.1.dispatched, rec ∈ sr.1.dispatched ∨ rec.node = rid) := by
  unfold submit_req_handler at h
  by_cases ht : is_data_transfer op
  · rw [if_neg (by simp [ht])] at h
    cases hrt : rt_submit (select_executor env sr.1 rid op) rid op sr.1 with
    | none =>
      simp only [hrt] at h
      exact Option.noConfusion h
    | some s1 =>
      simp only [hrt] at h
      obtain ⟨g1, g2⟩ := rt_submit_provenance _ rid op sr.1 s1 hrt
      rw [← Option.some.inj h]
      exact ⟨g1, g2⟩
  · rw [if_pos (by simp [ht])] at h
    have hout := Option.some.inj h
    rw [← hout]
    exact ⟨rfl, fun rec hrec => Or.inl hrec⟩

theorem materialize_copies_provenance (env : runtime_env) (nid : Nat)
    (region_id : Nat) (target_device : device_id) (rid : Nat) :
    ∀ (L : List rect) (sr out : scheduler_state × result),
      materialize_copies (submit_req_handler env rid) env nid region_id
        target_device L sr = some out →
      out.1.registry = sr.1.registry ∧
      (∀ rec ∈ out.1.dispatched, rec ∈ sr.1.dispatched ∨ rec.node = rid) := by
  intro L
  induction L with
  | nil =>
    intro sr out h
    have hout := Option.some.inj h
    rw [← hout]
    exact ⟨rfl, fun rec hrec => Or.inl hrec⟩
  | cons region restL ih =>
    intro sr out h
    obtain ⟨s, res⟩ := sr
    rw [materialize_copies] at h
    cases hsrc : get_update_source_candidates env.devices
        (s.regions region_id) target_device region with
    | nil =>
      simp only [hsrc] at h
      rw [← Option.some.inj h]
      exact ⟨rfl, fun rec hrec => Or.inl hrec⟩
    | cons src srcs =>
      obtain ⟨src_dev, src_rect⟩ := src
      simp only [hsrc] at h
      cases hh : submit_req_handler env rid
          (operation.memcpy ⟨src_dev, src_rect.1, region_id⟩
            ⟨target_device, region.1, region_id⟩ region.2) (s, res) with
      | none =>
        rw [hh] at h
        exact Option.noConfusion h
      | some sr1 =>
        rw [hh] at h
        obtain ⟨g1, g2⟩ := submit_req_handler_provenance env rid _ _ _ hh
        obtain ⟨f1, f2⟩ := ih sr1 out h
        constructor
        · exact f1.trans g1
        · intro rec hrec
          rcases f2 rec hrec with h1 | h1
          · exact g2 rec h1
          · exact Or.inr h1

theorem ensure_allocation_exists_provenance (env : runtime_env)
    (s : scheduler_state) (br : buffer_mem_req) (target : device_id) :
    (ensure_allocation_exists env s br target).1.registry = s.registry ∧
    (ensure_allocation_exists env s br target).1.dispatched = s.dispatched := by
  simp only [ensure_allocation_exists]
  split
  · exact ⟨rfl, rfl⟩
  · split <;> exact ⟨rfl, rfl⟩

theorem for_each_provenance (env : runtime_env) (rid : Nat)
    (sr out : scheduler_state × result)
    (h : for_each_explicit_operation (submit_req_handler env rid) env rid sr =
      some out) :
    out.1.registry = sr.1.registry ∧
    (∀ rec ∈ out.1.dispatched, rec ∈ sr.1.dispatched ∨ rec.node = rid) := by
  obtain ⟨s, res⟩ := sr
  simp only [for_each_explicit_operation] at h
  by_cases h1 : state_is_submitted ((s.nodes rid).state) = true
  · rw [if_pos h1] at h
    rw [← Option.some.inj h]
    exact ⟨rfl, fun rec hrec => Or.inl hrec⟩
  · rw [if_neg h1] at h
    by_cases h2 : is_requirement ((s.nodes rid).operation) = true
    · rw [if_neg (by simp [h2])] at h
      cases hbr : as_buffer_requirement ((s.nodes rid).operation) with
      | none =>
        simp only [hbr] at h
        rw [← Option.some.inj h]
        exact ⟨rfl, fun rec hrec => Or.inl hrec⟩
      | some br =>
        simp only [hbr] at h
        exact materialize_copies_provenance env rid br.data_region_id
          ((s.nodes rid).assigned_device.getD fallback_device) rid _ _ _ h
    · rw [if_pos (by simp [h2])] at h
      exact submit_req_handler_provenance env rid _ _ _ h

theorem submit_requirement_provenance (env : runtime_env)
    (s : scheduler_state) (rid : Nat) (out : scheduler_state × result)
    (h : submit_requirement env s rid = some out) :
    out.1.registry = s.registry ∧
    (∀ rec ∈ out.1.dispatched, rec ∈ s.dispatched ∨ rec.node = rid) := by
  unfold submit_requirement at h
  by_cases h1 : (!(is_requirement ((s.nodes rid).operation)) ||
      state_is_submitted ((s.nodes rid).state)) = true
  · rw [if_pos h1] at h
    rw [← Option.some.inj h]
    exact ⟨rfl, fun rec hrec => Or.inl hrec⟩
  · rw [if_neg h1] at h
    cases hbr : as_buffer_requirement ((s.nodes rid).operation) with
    | none =>
      simp only [hbr] at h
      rw [if_neg (by simp [is_success])] at h
      rw [if_pos (by exact ⟨by simp, by simp⟩)] at h
      cases hfe : for_each_explicit_operation (submit_req_handler env rid) env rid
          (s, result.success) with
      | none => rw [hfe] at h; exact Option.noConfusion h
      | some sr3 =>
        obtain ⟨s3, res3⟩ := sr3
        simp only [hfe] at h
        obtain ⟨g1, g2⟩ := for_each_provenance env rid _ _ hfe
        by_cases hres : is_success res3 = true
        · rw [if_neg (by simp [hres])] at h
          by_cases hev : (s3.nodes rid).event = none
          · rw [if_pos hev] at h
            rw [← Option.some.inj h]
            exact ⟨g1, g2⟩
          · rw [if_neg hev] at h
            rw [← Option.some.inj h]
            exact ⟨g1, g2⟩
        · rw [if_pos (by simp [hres])] at h
          rw [← Option.some.inj h]
          exact ⟨g1, g2⟩
    | some br =>
      simp only [hbr] at h
      obtain ⟨e1, e2⟩ := ensure_allocation_exists_provenance env s br
        ((s.nodes rid).assigned_device.getD fallback_device)
      by_cases hok : is_success ((ensure_allocation_exists env s br
          ((s.nodes rid).assigned_device.getD fallback_device)).2) = true
      · rw [if_neg (by simp [hok])] at h
        by_cases hdisc : br.mode ≠ sycl_access_mode.discard_write ∧
            br.mode ≠ sycl_access_mode.discard_read_write
        · rw [if_pos hdisc] at h
          cases hfe : for_each_explicit_operation (submit_req_handler env rid)
              env rid
              (initialize_memory_access
                (ensure_allocation_exists env s br
                  ((s.nodes rid).assigned_device.getD fallback_device)).1 rid
                ((s.nodes rid).assigned_device.getD fallback_device),
                result.success) with
          | none => rw [hfe] at h; exact Option.noConfusion h
          | some sr3 =>
            obtain ⟨s3, res3⟩ := sr3
            simp only [hfe] at h
            obtain ⟨g1, g2⟩ := for_each_provenance env rid _ _ hfe
            have e1i : (initialize_memory_access
                (ensure_allocation_exists env s br
                  ((s.nodes rid).assigned_device.getD fallback_device)).1 rid
                ((s.nodes rid).assigned_device.getD fallback_device)).registry =
                s.registry := e1
            have e2i : (initialize_memory_access
                (ensure_allocation_exists env s br
                  ((s.nodes rid).assigned_device.getD fallback_device)).1 rid
                ((s.nodes rid).assigned_device.getD fallback_device)).dispatched =
                s.dispatched := e2
            have g1' : s3.registry = s.registry := by
              rw [g1]; exact e1i
            have g2' : ∀ rec ∈ s3.dispatched,
                rec ∈ s.dispatched ∨ rec.node = rid := by
              intro rec hrec
              rcases g2 rec hrec with hmem | hmem
              · rw [e2i] at hmem
                exact Or.inl hmem
              · exact Or.inr hmem
            by_cases hres : is_success res3 = true
            · rw [if_neg (by simp [hres])] at h
              by_cases hev : (s3.nodes rid).event = none
              · rw [if_pos hev] at h
                rw [← Option.some.inj h]
                exact ⟨g1', g2'⟩
              · rw [if_neg hev] at h
                by_cases hread : br.mode = sycl_access_mode.read
                · rw [if_pos hread] at h
                  rw [← Option.some.inj h]
                  exact ⟨g1', g2'⟩
                · rw [if_neg hread] at h
                  rw [← Option.some.inj h]
                  exact ⟨g1', g2'⟩
            · rw [if_pos (by simp [hres])] at h
              rw [← Option.some.inj h]
              exact ⟨g1', g2'⟩
        · rw [if_neg hdisc] at h
          simp only [is_success, Bool.not_true, Bool.false_eq_true, if_false] at h
          by_cases hev : ((initialize_memory_access
              (ensure_allocation_exists env s br
                ((s.nodes rid).assigned_device.getD fallback_device)).1 rid
              ((s.nodes rid).assigned_device.getD fallback_device)).nodes rid).event
              = none
          · rw [if_pos hev] at h
            rw [← Option.some.inj h]
            exact ⟨e1, fun rec hrec => Or.inl (by rw [← e2]; exact hrec)⟩
          · rw [if_neg hev] at h
            by_cases hread : br.mode = sycl_access_mode.read
            · rw [if_pos hread] at h
              rw [← Option.some.inj h]
              exact ⟨e1, fun rec hrec => Or.inl (by rw [← e2]; exact hrec)⟩
            · rw [if_neg hread] at h
              rw [← Option.some.inj h]
              exact ⟨e1, fun rec hrec => Or.inl (by rw [← e2]; exact hrec)⟩
      · rw [if_pos (by simp [hok])] at h
        rw [← Option.some.inj h]
        exact ⟨e1, fun rec hrec => Or.inl (by rw [← e2]; exact hrec)⟩

theorem process_requirements_provenance (env : runtime_env) (nid : Nat) :
    ∀ (L : List Nat) (s t : scheduler_state) (b : Bool),
      process_requirements env nid L s = some (t, b) →
      t.registry = s.registry ∧
      (∀ rec ∈ t.dispatched, rec ∈ s.dispatched ∨ rec.node ∈ L) := by
  intro L
  induction L with
  | nil =>
    intro s t b h
    injection Option.some.inj h with hA hB
    subst hA
    exact ⟨rfl, fun rec hrec => Or.inl hrec⟩
  | cons rid rest ih =>
    intro s t b h
    rw [process_requirements] at h
    by_cases h1 : is_requirement ((s.nodes rid).operation) = true
    · rw [if_neg (by simp [h1])] at h
      cases hsr : submit_requirement env s rid with
      | none => rw [hsr] at h; exact Option.noConfusion h
      | some sr1 =>
        obtain ⟨s1, res⟩ := sr1
        simp only [hsr] at h
        obtain ⟨g1, g2⟩ := submit_requirement_provenance env s rid (s1, res) hsr
        by_cases hok : is_success res = true
        · rw [if_pos hok] at h
          obtain ⟨f1, f2⟩ := ih s1 t b h
          refine ⟨f1.trans g1, ?_⟩
          intro rec hrec
          rcases f2 rec hrec with h2 | h2
          · rcases g2 rec h2 with h3 | h3
            · exact Or.inl h3
            · exact Or.inr (by rw [h3]; exact List.mem_cons_self rid rest)
          · exact Or.inr (List.mem_cons_of_mem _ h2)
        · rw [if_neg hok] at h
          injection Option.some.inj h with hA hB
          subst hA
          obtain ⟨a1, a2, _, _⟩ :=
            register_error_result_preserves s1 res
          constructor
          · rw [(abort_submission_preserves _ nid).2.2.2.2, a1]
            exact g1
          · intro rec hrec
            rw [(abort_submission_preserves _ nid).2.2.1, a2] at hrec
            rcases g2 rec hrec with h3 | h3
            · exact Or.inl h3
            · exact Or.inr (by rw [h3]; exact List.mem_cons_self rid rest)
    · rw [if_pos (by simp [h1])] at h
      by_cases h2 : state_is_submitted ((s.nodes rid).state) = true
      · rw [if_neg (by simp [h2])] at h
        obtain ⟨f1, f2⟩ := ih s t b h
        refine ⟨f1, ?_⟩
        intro rec hrec
        rcases f2 rec hrec with h3 | h3
        · exact Or.inl h3
        · exact Or.inr (List.mem_cons_of_mem _ h3)
      · rw [if_pos (by simp [h2])] at h
        injection Option.some.inj h with hA hB
        subst hA
        constructor
        · exact (abort_submission_preserves _ nid).2.2.2.2
        · intro rec hrec
          rw [(abort_submission_preserves _ nid).2.2.1] at hrec
          exact Or.inl hrec

theorem assign_fold_preserves (d : device_id) (l : List Nat) :
    ∀ s : scheduler_state,
      ((l.foldl (fun acc rid => assign_devices_or_default acc rid d) s).registry
        = s.registry) ∧
      ((l.foldl (fun acc rid => assign_devices_or_default acc rid d) s).dispatched
        = s.dispatched) ∧
      ((l.foldl (fun acc rid => assign_devices_or_default acc rid d) s).errors
        = s.errors) ∧
      ((l.foldl (fun acc rid => assign_devices_or_default acc rid d) s).regions
        = s.regions) ∧
      ((l.foldl (fun acc rid => assign_devices_or_default acc rid d) s).alloc_requests
        = s.alloc_requests) := by
  induction l with
  | nil => intro s; exact ⟨rfl, rfl, rfl, rfl, rfl⟩
  | cons a rest ih =>
    intro s
    have hstep : (assign_devices_or_default s a d).registry = s.registry ∧
        (assign_devices_or_default s a d).dispatched = s.dispatched ∧
        (assign_devices_or_default s a d).errors = s.errors ∧
        (assign_devices_or_default s a d).regions = s.regions ∧
        (assign_devices_or_default s a d).alloc_requests = s.alloc_requests := by
      unfold assign_devices_or_default
      cases (s.nodes a).bind_hint <;> exact ⟨rfl, rfl, rfl, rfl, rfl⟩
    obtain ⟨g1, g2, g3, g4, g5⟩ := hstep
    obtain ⟨h1, h2, h3, h4, h5⟩ := ih (assign_devices_or_default s a d)
    simp only [List.foldl_cons]
    exact ⟨h1.trans g1, h2.trans g2, h3.trans g3, h4.trans g4, h5.trans g5⟩

theorem assign_phase_preserves (s : scheduler_state) (nid : Nat)
    (target : device_id) :
    (assign_phase s nid target).registry = s.registry ∧
    (assign_phase s nid target).dispatched = s.dispatched ∧
    (assign_phase s nid target).errors = s.errors ∧
    (assign_phase s nid target).regions = s.regions ∧
    (assign_phase s nid target).alloc_requests = s.alloc_requests := by
  unfold assign_phase
  obtain ⟨h1, h2, h3, h4, h5⟩ := assign_fold_preserves target
    (((update_node s nid (fun n => assign_to_device n target)).nodes nid).requirements)
    (update_node s nid (fun n => assign_to_device n target))
  exact ⟨h1, h2, h3, h4, h5⟩

/-- Claim C10 (amended): a node is registered with the Submission
Registry iff submit runs to completion without aborting: every abort path
(missing device hint, unsubmitted non-requirement predecessor, failed
requirement-resolution result) returns before the registration step; but
an error that is merely reported during resolution without failing the
resolution result (the data-source error) does not prevent
registration. -/
theorem C10_amended_registration (env : runtime_env) (nid : Nat)
    (s s' : scheduler_state) (ab : Bool)
    (h : dag_submit_core env nid s = some (s', ab))
    (h_not : nid ∉ s.registry) :
    (nid ∈ s'.registry ↔ ab = false) := by
  unfold dag_submit_core at h
  cases hh : (s.nodes nid).bind_hint with
  | none =>
    simp only [hh] at h
    injection Option.some.inj h with hA hB
    subst hA
    subst hB
    rw [show (abort_submission (register_error s not_bound_info) nid).registry
        = s.registry from (abort_submission_preserves _ nid).2.2.2.2]
    simp [h_not]
  | some target =>
    simp only [hh] at h
    cases hpr : process_requirements env nid
        (((assign_phase s nid target).nodes nid).requirements)
        (assign_phase s nid target) with
    | none => rw [hpr] at h; exact Option.noConfusion h
    | some pr =>
      obtain ⟨s3, b3⟩ := pr
      simp only [hpr] at h
      obtain ⟨p1, _⟩ := process_requirements_provenance env nid _ _ _ _ hpr
      have hreg3 : s3.registry = s.registry :=
        p1.trans (assign_phase_preserves s nid target).1
      cases b3 with
      | true =>
        simp only [] at h
        injection Option.some.inj h with hA hB
        subst hA
        subst hB
        rw [hreg3]
        simp [h_not]
      | false =>
        simp only [] at h
        by_cases hq : is_requirement ((s3.nodes nid).operation) = true
        · rw [if_pos hq] at h
          cases hsr : submit_requirement env s3 nid with
          | none => rw [hsr] at h; exact Option.noConfusion h
          | some sr4 =>
            obtain ⟨s4, res⟩ := sr4
            simp only [hsr] at h
            obtain ⟨q1, _⟩ := submit_requirement_provenance env s3 nid (s4, res) hsr
            by_cases hok : is_success res = true
            · rw [if_pos hok] at h
              injection Option.some.inj h with hA hB
              subst hA
              subst hB
              simp [register_submitted]
            · rw [if_neg hok] at h
              injection Option.some.inj h with hA hB
              subst hA
              subst hB
              rw [show (abort_submission (register_error_result s4 res) nid).registry
                  = (register_error_result s4 res).registry from
                  (abort_submission_preserves _ nid).2.2.2.2,
                (register_error_result_preserves s4 res).1, q1, hreg3]
              simp [h_not]
        · rw [if_neg hq] at h
          cases hrt : rt_submit
              (select_executor env s3 nid ((s3.nodes nid).operation)) nid
              ((s3.nodes nid).operation) s3 with
          | none => rw [hrt] at h; exact Option.noConfusion h
          | some s4 =>
            simp only [hrt] at h
            injection Option.some.inj h with hA hB
            subst hA
            subst hB
            simp [register_submitted]

/-- Concrete state for the C10 counterexample: node 5 (kernel, bound to
dev2) lists requirement node 6, a read buffer requirement whose only
outdated rectangle has no update source. -/
def state_c10 : scheduler_state :=
  { nodes := fun i =>
      if i = 5 then { blank_node with requirements := [6], bind_hint := some dev2 }
      else if i = 6 then
        { blank_node with operation :=
            operation.buffer_req ⟨0, sycl_access_mode.read, (0, 0, 0), (1, 1, 1), none⟩ }
      else blank_node
    regions := fun _ => region_nowhere_valid
    errors := []
    dispatched := []
    alloc_requests := []
    registry := [] }

/-- Counterexample to claim C10 as stated: the submission reports a
data-source error (the error sink is non-empty afterwards), yet node 5
is still registered with the Submission Registry — registration is not
equivalent to "no reported error". -/
theorem C10_counterexample :
    (dag_direct_scheduler_submit test_env 5 state_c10).map
      (fun s' => (decide (no_data_source_info ∈ s'.errors),
        decide (5 ∈ s'.registry))) = some (true, true) := by
  decide

/-- Concrete state for the C10 witness: node 3 has no device hint, so the
submission aborts before registration. -/
def state_c10w : scheduler_state :=
  { nodes := fun _ => blank_node
    regions := fun _ => region_nowhere_valid
    errors := []
    dispatched := []
    alloc_requests := []
    registry := [] }

/-- Witness for the amended C10 at a concrete input (the abort path of a
missing device hint: the node is not registered). -/
theorem C10_amended_registration_witness :
    3 ∈ (abort_submission (register_error state_c10w not_bound_info) 3).registry ↔
      true = false :=
  C10_amended_registration test_env 3 state_c10w
    (abort_submission (register_error state_c10w not_bound_info) 3) true
    (by rfl) (by decide)

theorem process_requirements_append (env : runtime_env) (nid : Nat) :
    ∀ (pre L2 : List Nat) (s s3 : scheduler_state),
      process_requirements env nid pre s = some (s3, false) →
      process_requirements env nid (pre ++ L2) s =
        process_requirements env nid L2 s3 := by
  intro pre
  induction pre with
  | nil =>
    intro L2 s s3 h
    injection Option.some.inj h with hA hB
    subst hA
    rfl
  | cons rid rest ih =>
    intro L2 s s3 h
    rw [process_requirements] at h
    rw [List.cons_append, process_requirements]
    by_cases h1 : is_requirement ((s.nodes rid).operation) = true
    · rw [if_neg (by simp [h1])] at h ⊢
      cases hsr : submit_requirement env s rid with
      | none => rw [hsr] at h; exact Option.noConfusion h
      | some sr1 =>
        obtain ⟨s1, res⟩ := sr1
        simp only [hsr] at h ⊢
        by_cases hok : is_success res = true
        · rw [if_pos hok] at h ⊢
          exact ih L2 s1 s3 h
        · rw [if_neg hok] at h
          injection Option.some.inj h with hA hB
          exact Bool.noConfusion hB
    · rw [if_pos (by simp [h1])] at h ⊢
      by_cases h2 : state_is_submitted ((s.nodes rid).state) = true
      · rw [if_neg (by simp [h2])] at h ⊢
        exact ih L2 s s3 h
      · rw [if_pos (by simp [h2])] at h
        injection Option.some.inj h with hA hB
        exact Bool.noConfusion hB

/-- Claim C6: when the requirement loop reaches a requirement-list entry
whose operation is not a requirement and which is not already submitted,
submit registers a feature_not_supported usage error and aborts the whole
submission — the node, the offending entry, and every still-unsubmitted
requirement of the node are cancelled, the node is not registered, and
the node's own operation is never dispatched. -/
theorem C6_unsubmitted_predecessor (env : runtime_env) (s : scheduler_state)
    (nid : Nat) (target : device_id) (pre : List Nat) (rid : Nat)
    (rest : List Nat) (s3 : scheduler_state)
    (h_hint : (s.nodes nid).bind_hint = some target)
    (h_reqs : ((assign_phase s nid target).nodes nid).requirements =
      pre ++ rid :: rest)
    (h_pre : process_requirements env nid pre (assign_phase s nid target) =
      some (s3, false))
    (h_notreq : is_requirement ((s3.nodes rid).operation) = false)
    (h_notsub : state_is_submitted ((s3.nodes rid).state) = false)
    (h_nid3 : state_is_submitted ((s3.nodes nid).state) = false)
    (h_rid_req3 : rid ∈ (s3.nodes nid).requirements)
    (h_nid_pre : nid ∉ pre) :
    ∃ s', dag_direct_scheduler_submit env nid s = some s' ∧
      s'.errors = s3.errors ++ [multiple_unsubmitted_info] ∧
      (s'.nodes nid).state = node_state.cancelled ∧
      (s'.nodes rid).state = node_state.cancelled ∧
      (∀ r ∈ (s3.nodes nid).requirements,
        state_is_submitted ((s3.nodes r).state) = false →
          (s'.nodes r).state = node_state.cancelled) ∧
      s'.registry = s.registry ∧
      (∀ rec ∈ s'.dispatched, rec ∈ s.dispatched ∨ rec.node ≠ nid) := by
  have hcore : dag_submit_core env nid s =
      some (abort_submission (register_error s3 multiple_unsubmitted_info) nid,
        true) := by
    unfold dag_submit_core
    simp only [h_hint]
    rw [h_reqs, process_requirements_append env nid pre (rid :: rest) _ s3 h_pre]
    rw [process_requirements]
    rw [if_pos (by simp [h_notreq])]
    rw [if_pos (by simp [h_notsub])]
  have hsub : dag_direct_scheduler_submit env nid s =
      some (abort_submission (register_error s3 multiple_unsubmitted_info) nid) := by
    unfold dag_direct_scheduler_submit
    rw [hcore]
    rfl
  obtain ⟨p1, p2⟩ :=
    process_requirements_provenance env nid pre (assign_phase s nid target)
      s3 false h_pre
  obtain ⟨a1, a2, a3, a4, a5⟩ :=
    abort_submission_preserves (register_error s3 multiple_unsubmitted_info) nid
  refine ⟨_, hsub, a1, ?_, ?_, ?_, ?_, ?_⟩
  · exact abort_submission_cancels_node
      (register_error s3 multiple_unsubmitted_info) nid h_nid3
  · exact abort_submission_cancels_reqs
      (register_error s3 multiple_unsubmitted_info) nid rid h_rid_req3 h_notsub
  · intro r hr hrsub
    exact abort_submission_cancels_reqs
      (register_error s3 multiple_unsubmitted_info) nid r hr hrsub
  · rw [a5]
    exact p1.trans (assign_phase_preserves s nid target).1
  · intro rec hrec
    have hrec3 : rec ∈ s3.dispatched := by
      have a3d : (abort_submission (register_error s3 multiple_unsubmitted_info)
          nid).dispatched = s3.dispatched := a3
      rw [a3d] at hrec
      exact hrec
    rcases p2 rec hrec3 with h1 | h1
    · rw [(assign_phase_preserves s nid target).2.1] at h1
      exact Or.inl h1
    · right
      intro hcontra
      rw [hcontra] at h1
      exact h_nid_pre h1

/-- Concrete state for the C6 witness: node 0 (bound to dev2) lists node
1, whose operation is a kernel (not a requirement) and which is not yet
submitted. -/
def state_c6w : scheduler_state :=
  { nodes := fun i =>
      if i = 0 then { blank_node with requirements := [1], bind_hint := some dev2 }
      else blank_node
    regions := fun _ => region_nowhere_valid
    errors := []
    dispatched := []
    alloc_requests := []
    registry := [] }

/-- Witness for C6 at a concrete input. -/
theorem C6_unsubmitted_predecessor_witness :
    ∃ s', dag_direct_scheduler_submit test_env 0 state_c6w = some s' ∧
      s'.errors = (assign_phase state_c6w 0 dev2).errors ++
        [multiple_unsubmitted_info] ∧
      (s'.nodes 0).state = node_state.cancelled ∧
      (s'.nodes 1).state = node_state.cancelled ∧
      (∀ r ∈ (((assign_phase state_c6w 0 dev2)).nodes 0).requirements,
        state_is_submitted (((assign_phase state_c6w 0 dev2).nodes r).state) =
          false →
          (s'.nodes r).state = node_state.cancelled) ∧
      s'.registry = state_c6w.registry ∧
      (∀ rec ∈ s'.dispatched, rec ∈ state_c6w.dispatched ∨ rec.node ≠ 0) :=
  C6_unsubmitted_predecessor test_env state_c6w 0 dev2 [] 1 []
    (assign_phase state_c6w 0 dev2) (by decide) (by decide) (by rfl)
    (by decide) (by decide) (by decide) (by decide) (by decide)

theorem mark_submitted_fields (n : dag_node) :
    (mark_submitted n).operation = n.operation ∧
    (mark_submitted n).requirements = n.requirements ∧
    (mark_submitted n).assigned_device = n.assigned_device := by
  unfold mark_submitted
  split <;> exact ⟨rfl, rfl, rfl⟩

theorem mark_submitted_of_active (n : dag_node)
    (h1 : n.state ≠ node_state.complete) (h2 : n.state ≠ node_state.cancelled) :
    (mark_submitted n).state = node_state.submitted ∧
    (mark_submitted n).event = some node_event.pending := by
  unfold mark_submitted
  rw [if_neg (by simp [h1, h2])]
  exact ⟨rfl, rfl⟩

theorem unsubmitted_not_terminal (st : node_state)
    (h : state_is_submitted st = false) :
    st ≠ node_state.complete ∧ st ≠ node_state.cancelled := by
  cases st <;> simp_all [state_is_submitted]

theorem update_region_regions_same (s : scheduler_state) (i : Nat)
    (f : data_region → data_region) :
    (update_region s i f).regions i = f (s.regions i) := by
  simp [update_region]

theorem update_region_regions_other (s : scheduler_state) (i : Nat)
    (f : data_region → data_region) (k : Nat) (h : k ≠ i) :
    (update_region s i f).regions k = s.regions k := by
  simp [update_region, h]

theorem rt_submit_node_eq (e : Nat) (nid : Nat) (op : operation)
    (s : scheduler_state) :
    ∃ s1, rt_submit (some e) nid op s = some s1 ∧
      s1.nodes nid = mark_submitted (assign_to_executor (s.nodes nid) e) ∧
      (∀ k, k ≠ nid → s1.nodes k = s.nodes k) ∧
      s1.regions = s.regions ∧
      s1.errors = s.errors := by
  refine ⟨_, rfl, ?_, ?_, rfl, rfl⟩
  · simp [update_node]
  · intro k hk
    simp [update_node, hk]

theorem materialize_copies_ok (env : runtime_env) (rid : Nat)
    (region_id : Nat) (target : device_id) (e : Nat)
    (h_exec : env.get_executor target.backend target = some e) :
    ∀ (L : List rect) (s : scheduler_state) (res : result),
      (s.nodes rid).assigned_device = some target →
      (s.nodes rid).state ≠ node_state.complete →
      (s.nodes rid).state ≠ node_state.cancelled →
      (∀ r ∈ L, get_update_source_candidates env.devices (s.regions region_id)
        target r ≠ []) →
      ∃ s1, materialize_copies (submit_req_handler env rid) env rid region_id
          target L (s, res) = some (s1, res) ∧
        s1.regions = s.regions ∧
        s1.errors = s.errors ∧
        (∀ k, k ≠ rid → s1.nodes k = s.nodes k) ∧
        (s1.nodes rid).operation = (s.nodes rid).operation ∧
        (s1.nodes rid).assigned_device = some target ∧
        ((s1.nodes rid).event =
          if L = [] then (s.nodes rid).event else some node_event.pending) ∧
        ((s1.nodes rid).state =
          if L = [] then (s.nodes rid).state else node_state.submitted) := by
  intro L
  induction L with
  | nil =>
    intro s res hdev hc1 hc2 _
    exact ⟨s, rfl, rfl, rfl, fun k _ => rfl, rfl, hdev, by simp, by simp⟩
  | cons region restL ih =>
    intro s res hdev hc1 hc2 hsrc
    have hne := hsrc region (List.mem_cons_self _ _)
    cases hcand : get_update_source_candidates env.devices
        (s.regions region_id) target region with
    | nil => exact absurd hcand hne
    | cons src srcs =>
      obtain ⟨src_dev, src_rect⟩ := src
      have hsel : select_executor env s rid
          (operation.memcpy ⟨src_dev, src_rect.1, region_id⟩
            ⟨target, region.1, region_id⟩ region.2) = some e := by
        unfold select_executor
        rw [hdev]
        exact h_exec
      obtain ⟨sC, hrt, hCnode, hCother, hCreg, hCerr⟩ :=
        rt_submit_node_eq e rid
          (operation.memcpy ⟨src_dev, src_rect.1, region_id⟩
            ⟨target, region.1, region_id⟩ region.2) s
      have hhandler : submit_req_handler env rid
          (operation.memcpy ⟨src_dev, src_rect.1, region_id⟩
            ⟨target, region.1, region_id⟩ region.2) (s, res) = some (sC, res) := by
        unfold submit_req_handler
        rw [if_neg (by simp [is_data_transfer])]
        simp only [hsel, hrt]
      have hCstate : (sC.nodes rid).state = node_state.submitted := by
        rw [hCnode]
        exact (mark_submitted_of_active _ (by simpa using hc1)
          (by simpa using hc2)).1
      have hCevent : (sC.nodes rid).event = some node_event.pending := by
        rw [hCnode]
        exact (mark_submitted_of_active _ (by simpa using hc1)
          (by simpa using hc2)).2
      have hCdev : (sC.nodes rid).assigned_device = some target := by
        rw [hCnode, (mark_submitted_fields _).2.2]
        exact hdev
      have hCop : (sC.nodes rid).operation = (s.nodes rid).operation := by
        rw [hCnode, (mark_submitted_fields _).1]
        rfl
      obtain ⟨s1, hm, g_reg, g_err, g_other, g_op, g_dev, g_event, g_state⟩ :=
        ih sC res hCdev (by rw [hCstate]; simp) (by rw [hCstate]; simp)
          (by intro r hr; rw [hCreg]; exact hsrc r (List.mem_cons_of_mem _ hr))
      refine ⟨s1, ?_, g_reg.trans hCreg, g_err.trans hCerr, ?_, ?_, g_dev, ?_, ?_⟩
      · rw [materialize_copies, hcand]
        simp only [hhandler]
        exact hm
      · intro k hk
        rw [g_other k hk, hCother k hk]
      · rw [g_op, hCop]
      · rw [g_event]
        split <;> simp [hCevent]
      · rw [g_state]
        split <;> simp [hCstate]

/-- Claim C3: for a resolved buffer requirement: if resolution produced
no real device operation (nothing outdated, or a discard access mode),
the requirement is marked virtually submitted with an immediately-ready
event so dependents never block on it; otherwise the requirement carries
a pending event and the region tracker is updated — read-mode access
marks the accessed rectangle valid on the bound device, any write-mode
access marks it current, invalidating the rectangle on every other
device. -/
theorem C3_resolution_outcome (env : runtime_env) (s : scheduler_state)
    (rid : Nat) (br : buffer_mem_req) (target : device_id) (ptr : Nat) (e : Nat)
    (h_op : (s.nodes rid).operation = operation.buffer_req br)
    (h_state : state_is_submitted ((s.nodes rid).state) = false)
    (h_dev : (s.nodes rid).assigned_device = some target)
    (h_event : (s.nodes rid).event = none)
    (h_alloc : (s.regions br.data_region_id).allocations target = some ptr)
    (h_exec : env.get_executor target.backend target = some e)
    (h_sources : ∀ r ∈ get_outdated_regions (s.regions br.data_region_id)
        target br.offset br.range,
      get_update_source_candidates env.devices (s.regions br.data_region_id)
        target r ≠ []) :
    ∃ s', submit_requirement env s rid = some (s', result.success) ∧
      ((get_outdated_regions (s.regions br.data_region_id) target br.offset
          br.range = [] ∨
        br.mode = sycl_access_mode.discard_write ∨
        br.mode = sycl_access_mode.discard_read_write) →
        (s'.nodes rid).state = node_state.submitted ∧
        (s'.nodes rid).event = some node_event.ready ∧
        (s'.nodes rid).is_virtual = true ∧
        s'.regions = s.regions ∧
        s'.dispatched = s.dispatched) ∧
      (get_outdated_regions (s.regions br.data_region_id) target br.offset
          br.range ≠ [] →
        br.mode ≠ sycl_access_mode.discard_write →
        br.mode ≠ sycl_access_mode.discard_read_write →
        (s'.nodes rid).event = some node_event.pending ∧
        (∀ k, k ≠ br.data_region_id → s'.regions k = s.regions k) ∧
        (br.mode = sycl_access_mode.read →
          s'.regions br.data_region_id =
            mark_range_valid (s.regions br.data_region_id) target br.offset
              br.range) ∧
        (br.mode ≠ sycl_access_mode.read →
          s'.regions br.data_region_id =
            mark_range_current (s.regions br.data_region_id) target br.offset
              br.range ∧
          (∀ d, d ≠ target → ∀ p, point_in br.offset br.range p = true →
            (s'.regions br.data_region_id).valid d p = false))) := by
  have h_ensure : ensure_allocation_exists env s br target = (s, result.success) := by
    unfold ensure_allocation_exists
    rw [if_pos]
    unfold has_allocation
    rw [h_alloc]
    rfl
  obtain ⟨hs2state, hs2event, hs2dev, _⟩ :=
    initialize_memory_access_preserves s rid target rid
  have hs2op := initialize_memory_access_operation s rid target br h_op
  have hvirt : ((update_node (initialize_memory_access s rid target) rid
      mark_virtually_submitted).nodes rid).state = node_state.submitted ∧
      ((update_node (initialize_memory_access s rid target) rid
        mark_virtually_submitted).nodes rid).event = some node_event.ready ∧
      ((update_node (initialize_memory_access s rid target) rid
        mark_virtually_submitted).nodes rid).is_virtual = true := by
    rw [update_node_nodes_same, mark_virtually_submitted,
      if_neg (by rw [hs2state]; simp [h_state])]
    exact ⟨rfl, rfl, rfl⟩
  by_cases hdisc : br.mode = sycl_access_mode.discard_write ∨
      br.mode = sycl_access_mode.discard_read_write
  · have heq : submit_requirement env s rid =
        some (update_node (initialize_memory_access s rid target) rid
          mark_virtually_submitted, result.success) := by
      simp only [submit_requirement, h_op, h_state, is_requirement,
        as_buffer_requirement, Bool.not_true, Bool.false_or, Bool.false_eq_true,
        if_false, h_dev, Option.getD_some, h_ensure, is_success]
      rw [if_neg (by rcases hdisc with h | h <;> simp [h])]
      simp only [is_success, Bool.not_true, Bool.false_eq_true, if_false]
      rw [hs2event, h_event]
      simp
    refine ⟨_, heq, ?_, ?_⟩
    · intro _
      exact ⟨hvirt.1, hvirt.2.1, hvirt.2.2, rfl, rfl⟩
    · intro _ hd1 hd2
      rcases hdisc with h | h
      · exact absurd h hd1
      · exact absurd h hd2
  · have hd1 : br.mode ≠ sycl_access_mode.discard_write :=
      fun hq => hdisc (Or.inl hq)
    have hd2 : br.mode ≠ sycl_access_mode.discard_read_write :=
      fun hq => hdisc (Or.inr hq)
    cases hout : get_outdated_regions (s.regions br.data_region_id) target
        br.offset br.range with
    | nil =>
      have heq : submit_requirement env s rid =
          some (update_node (initialize_memory_access s rid target) rid
            mark_virtually_submitted, result.success) := by
        simp only [submit_requirement, h_op, h_state, is_requirement,
          as_buffer_requirement, Bool.not_true, Bool.false_or, Bool.false_eq_true,
          if_false, h_dev, Option.getD_some, h_ensure, is_success]
        rw [if_pos (And.intro hd1 hd2)]
        have h_for : for_each_explicit_operation (submit_req_handler env rid)
            env rid (initialize_memory_access s rid target, result.success) =
            some (initialize_memory_access s rid target, result.success) := by
          simp only [for_each_explicit_operation, hs2state, h_state, hs2op,
            is_requirement, as_buffer_requirement, Bool.not_true, if_false,
            Bool.false_eq_true, hs2dev, h_dev, Option.getD_some,
            initialize_memory_access_regions, hout]
          rfl
        rw [h_for]
        simp only [is_success, Bool.not_true, Bool.false_eq_true, if_false]
        rw [hs2event, h_event]
        simp
      refine ⟨_, heq, ?_, ?_⟩
      · intro _
        exact ⟨hvirt.1, hvirt.2.1, hvirt.2.2, rfl, rfl⟩
      · intro hne _ _
        exact absurd rfl hne
    | cons r0 restL =>
      obtain ⟨s3, hm, m_reg, m_err, m_other, m_op, m_dev, m_event, m_state⟩ :=
        materialize_copies_ok env rid br.data_region_id target e h_exec
          (r0 :: restL) (initialize_memory_access s rid target) result.success
          (by rw [hs2dev]; exact h_dev)
          (by rw [hs2state]; exact (unsubmitted_not_terminal _ h_state).1)
          (by rw [hs2state]; exact (unsubmitted_not_terminal _ h_state).2)
          (by
            intro r hr
            rw [initialize_memory_access_regions]
            exact h_sources r (by rw [hout]; exact hr))
      have m_event' : (s3.nodes rid).event = some node_event.pending := by
        rw [m_event]; simp
      have h_for : for_each_explicit_operation (submit_req_handler env rid)
          env rid (initialize_memory_access s rid target, result.success) =
          some (s3, result.success) := by
        simp only [for_each_explicit_operation, hs2state, h_state, hs2op,
          is_requirement, as_buffer_requirement, Bool.not_true, if_false,
          Bool.false_eq_true, hs2dev, h_dev, Option.getD_some,
          initialize_memory_access_regions, hout]
        exact hm
      have hmain : ∀ f : data_region → data_region,
          (if br.mode = sycl_access_mode.read then
            submit_requirement env s rid =
              some (update_region s3 br.data_region_id
                (fun r => mark_range_valid r target br.offset br.range),
                result.success)
          else
            submit_requirement env s rid =
              some (update_region s3 br.data_region_id
                (fun r => mark_range_current r target br.offset br.range),
                result.success)) := by
        intro _
        simp only [submit_requirement, h_op, h_state, is_requirement,
          as_buffer_requirement, Bool.not_true, Bool.false_or, Bool.false_eq_true,
          if_false, h_dev, Option.getD_some, h_ensure, is_success]
        rw [if_pos (And.intro hd1 hd2), h_for]
        simp only [is_success, Bool.not_true, Bool.false_eq_true, if_false]
        have hnev : ¬ ((s3.nodes rid).event = none) := by
          rw [m_event']
          simp
        rw [if_neg hnev]
        split
        · rfl
        · rfl
      by_cases hread : br.mode = sycl_access_mode.read
      · have heq := hmain id
        rw [if_pos hread] at heq
        refine ⟨_, heq, ?_, ?_⟩
        · intro hcond
          rcases hcond with hnil | hq | hq
          · exact absurd hnil (by simp)
          · exact absurd hq hd1
          · exact absurd hq hd2
        · intro _ _ _
          refine ⟨m_event', ?_, ?_, ?_⟩
          · intro k hk
            rw [update_region_regions_other _ _ _ k hk, congrFun m_reg k]
            rw [initialize_memory_access_regions]
          · intro _
            rw [update_region_regions_same, congrFun m_reg br.data_region_id]
            rw [initialize_memory_access_regions]
          · intro hq
            exact absurd hread hq
      · have heq := hmain id
        rw [if_neg hread] at heq
        have hcur : (update_region s3 br.data_region_id
            (fun r => mark_range_current r target br.offset br.range)).regions
            br.data_region_id =
            mark_range_current (s.regions br.data_region_id) target br.offset
              br.range := by
          rw [update_region_regions_same, congrFun m_reg br.data_region_id]
          rw [initialize_memory_access_regions]
        refine ⟨_, heq, ?_, ?_⟩
        · intro hcond
          rcases hcond with hnil | hq | hq
          · exact absurd hnil (by simp)
          · exact absurd hq hd1
          · exact absurd hq hd2
        · intro _ _ _
          refine ⟨m_event', ?_, ?_, ?_⟩
          · intro k hk
            rw [update_region_regions_other _ _ _ k hk, congrFun m_reg k]
            rw [initialize_memory_access_regions]
          · intro hq
            exact absurd hq hread
          · intro _
            refine ⟨hcur, ?_⟩
            intro d hd p hp
            rw [hcur]
            simp [mark_range_current, hd, hp]

/-- Concrete state for the C3 witness: requirement node 1 reads the
whole region on dev2 while only dev1 holds valid data, so two unit
rectangles are outdated and dev1 is the update source for both. -/
def state_c3w : scheduler_state :=
  { nodes := fun i =>
      if i = 1 then
        { blank_node with
            operation := operation.buffer_req
              ⟨0, sycl_access_mode.read, (0, 0, 0), (2, 1, 1), none⟩
            assigned_device := some dev2 }
      else blank_node
    regions := fun _ => region_valid_on_dev1
    errors := []
    dispatched := []
    alloc_requests := []
    registry := [] }

/-- Witness for C3 at a concrete input. -/
theorem C3_resolution_outcome_witness :
    ∃ s', submit_requirement test_env state_c3w 1 = some (s', result.success) ∧
      ((get_outdated_regions (state_c3w.regions 0) dev2 (0, 0, 0) (2, 1, 1) = [] ∨
        sycl_access_mode.read = sycl_access_mode.discard_write ∨
        sycl_access_mode.read = sycl_access_mode.discard_read_write) →
        (s'.nodes 1).state = node_state.submitted ∧
        (s'.nodes 1).event = some node_event.ready ∧
        (s'.nodes 1).is_virtual = true ∧
        s'.regions = state_c3w.regions ∧
        s'.dispatched = state_c3w.dispatched) ∧
      (get_outdated_regions (state_c3w.regions 0) dev2 (0, 0, 0) (2, 1, 1) ≠ [] →
        sycl_access_mode.read ≠ sycl_access_mode.discard_write →
        sycl_access_mode.read ≠ sycl_access_mode.discard_read_write →
        (s'.nodes 1).event = some node_event.pending ∧
        (∀ k, k ≠ 0 → s'.regions k = state_c3w.regions k) ∧
        (sycl_access_mode.read = sycl_access_mode.read →
          s'.regions 0 =
            mark_range_valid (state_c3w.regions 0) dev2 (0, 0, 0) (2, 1, 1)) ∧
        (sycl_access_mode.read ≠ sycl_access_mode.read →
          s'.regions 0 =
            mark_range_current (state_c3w.regions 0) dev2 (0, 0, 0) (2, 1, 1) ∧
          (∀ d, d ≠ dev2 → ∀ p, point_in (0, 0, 0) (2, 1, 1) p = true →
            (s'.regions 0).valid d p = false))) :=
  C3_resolution_outcome test_env state_c3w 1
    ⟨0, sycl_access_mode.read, (0, 0, 0), (2, 1, 1), none⟩ dev2 500 1
    (by decide) (by decide) (by decide) (by decide) (by decide) (by decide)
    (by decide)

/-- Claim C5: a node submitted without an explicit device-binding hint is
rejected with a registered feature_not_supported usage error, the node
and every still-unsubmitted requirement are cancelled, and submit returns
without assigning devices, requesting memory or dispatching anything. -/
theorem C5_missing_device_hint (env : runtime_env) (s : scheduler_state)
    (nid : Nat)
    (h_hint : (s.nodes nid).bind_hint = none)
    (h_state : state_is_submitted ((s.nodes nid).state) = false) :
    ∃ s', dag_direct_scheduler_submit env nid s = some s' ∧
      s'.errors = s.errors ++ [not_bound_info] ∧
      (s'.nodes nid).state = node_state.cancelled ∧
      (∀ r ∈ (s.nodes nid).requirements,
        state_is_submitted ((s.nodes r).state) = false →
          (s'.nodes r).state = node_state.cancelled) ∧
      s'.dispatched = s.dispatched ∧
      s'.alloc_requests = s.alloc_requests ∧
      s'.regions = s.regions ∧
      s'.registry = s.registry ∧
      (∀ k, (s'.nodes k).assigned_device = (s.nodes k).assigned_device) := by
  have hcore : dag_direct_scheduler_submit env nid s =
      some (abort_submission (register_error s not_bound_info) nid) := by
    unfold dag_direct_scheduler_submit dag_submit_core
    rw [h_hint]
    rfl
  refine ⟨_, hcore, ?_, ?_, ?_, ?_, ?_, ?_, ?_, ?_⟩
  · exact (abort_submission_preserves (register_error s not_bound_info) nid).1
  · exact abort_submission_cancels_node (register_error s not_bound_info) nid h_state
  · intro r hr hsub
    exact abort_submission_cancels_reqs (register_error s not_bound_info) nid r hr hsub
  · exact (abort_submission_preserves (register_error s not_bound_info) nid).2.2.1
  · exact (abort_submission_preserves (register_error s not_bound_info) nid).2.2.2.1
  · exact (abort_submission_preserves (register_error s not_bound_info) nid).2.1
  · exact (abort_submission_preserves (register_error s not_bound_info) nid).2.2.2.2
  · intro k
    exact abort_submission_assigned_device (register_error s not_bound_info) nid k

/-- Concrete state for the C5 witness: node 0 has no device hint and one
unsubmitted requirement node 1. -/
def state_c5 : scheduler_state :=
  { nodes := fun i =>
      if i = 0 then { blank_node with requirements := [1] }
      else if i = 1 then
        { blank_node with operation :=
            operation.buffer_req ⟨0, sycl_access_mode.read, (0, 0, 0), (1, 1, 1), none⟩ }
      else blank_node
    regions := fun _ => region_nowhere_valid
    errors := []
    dispatched := []
    alloc_requests := []
    registry := [] }

/-- Witness for C5 at a concrete input. -/
theorem C5_missing_device_hint_witness :
    ∃ s', dag_direct_scheduler_submit test_env 0 state_c5 = some s' ∧
      s'.errors = state_c5.errors ++ [not_bound_info] ∧
      (s'.nodes 0).state = node_state.cancelled ∧
      (∀ r ∈ (state_c5.nodes 0).requirements,
        state_is_submitted ((state_c5.nodes r).state) = false →
          (s'.nodes r).state = node_state.cancelled) ∧
      s'.dispatched = state_c5.dispatched ∧
      s'.alloc_requests = state_c5.alloc_requests ∧
      s'.regions = state_c5.regions ∧
      s'.registry = state_c5.registry ∧
      (∀ k, (s'.nodes k).assigned_device = (state_c5.nodes k).assigned_device) :=
  C5_missing_device_hint test_env state_c5 0 (by rfl) (by rfl)

theorem materialize_copies_prefix (env : runtime_env) (rid : Nat)
    (region_id : Nat) (target : device_id) (e : Nat)
    (h_exec : env.get_executor target.backend target = some e) :
    ∀ (pre : List rect) (s : scheduler_state) (res : result),
      (s.nodes rid).assigned_device = some target →
      (s.nodes rid).state ≠ node_state.complete →
      (s.nodes rid).state ≠ node_state.cancelled →
      (∀ r ∈ pre, get_update_source_candidates env.devices (s.regions region_id)
        target r ≠ []) →
      ∃ sC, (∀ L2 : List rect,
          materialize_copies (submit_req_handler env rid) env rid region_id
            target (pre ++ L2) (s, res) =
          materialize_copies (submit_req_handler env rid) env rid region_id
            target L2 (sC, res)) ∧
        sC.regions = s.regions ∧
        sC.errors = s.errors ∧
        sC.registry = s.registry ∧
        (pre = [] → sC = s) ∧
        (sC.nodes rid).assigned_device = some target ∧
        ((sC.nodes rid).event =
          if pre = [] then (s.nodes rid).event else some node_event.pending) ∧
        ((sC.nodes rid).state =
          if pre = [] then (s.nodes rid).state else node_state.submitted) := by
  intro pre
  induction pre with
  | nil =>
    intro s res hdev hc1 hc2 _
    exact ⟨s, fun L2 => rfl, rfl, rfl, rfl, fun _ => rfl, hdev, by simp, by simp⟩
  | cons region restPre ih =>
    intro s res hdev hc1 hc2 hsrc
    have hne := hsrc region (List.mem_cons_self _ _)
    cases hcand : get_update_source_candidates env.devices
        (s.regions region_id) target region with
    | nil => exact absurd hcand hne
    | cons src srcs =>
      obtain ⟨src_dev, src_rect⟩ := src
      have hsel : select_executor env s rid
          (operation.memcpy ⟨src_dev, src_rect.1, region_id⟩
            ⟨target, region.1, region_id⟩ region.2) = some e := by
        unfold select_executor
        rw [hdev]
        exact h_exec
      obtain ⟨sC1, hrt, hC1node, hC1other, hC1reg, hC1err⟩ :=
        rt_submit_node_eq e rid
          (operation.memcpy ⟨src_dev, src_rect.1, region_id⟩
            ⟨target, region.1, region_id⟩ region.2) s
      have hC1registry : sC1.registry = s.registry :=
        (rt_submit_provenance _ rid _ s sC1 hrt).1
      have hhandler : submit_req_handler env rid
          (operation.memcpy ⟨src_dev, src_rect.1, region_id⟩
            ⟨target, region.1, region_id⟩ region.2) (s, res) = some (sC1, res) := by
        unfold submit_req_handler
        rw [if_neg (by simp [is_data_transfer])]
        simp only [hsel, hrt]
      have hC1state : (sC1.nodes rid).state = node_state.submitted := by
        rw [hC1node]
        exact (mark_submitted_of_active _ (by simpa using hc1)
          (by simpa using hc2)).1
      have hC1event : (sC1.nodes rid).event = some node_event.pending := by
        rw [hC1node]
        exact (mark_submitted_of_active _ (by simpa using hc1)
          (by simpa using hc2)).2
      have hC1dev : (sC1.nodes rid).assigned_device = some target := by
        rw [hC1node, (mark_submitted_fields _).2.2]
        exact hdev
      obtain ⟨sC, hsplit, g_reg, g_err, g_registry, _, g_dev, g_event, g_state⟩ :=
        ih sC1 res hC1dev (by rw [hC1state]; simp) (by rw [hC1state]; simp)
          (by intro r hr; rw [hC1reg]; exact hsrc r (List.mem_cons_of_mem _ hr))
      refine ⟨sC, ?_, g_reg.trans hC1reg, g_err.trans hC1err,
        g_registry.trans hC1registry, ?_, g_dev, ?_, ?_⟩
      · intro L2
        rw [List.cons_append, materialize_copies, hcand]
        simp only [hhandler]
        exact hsplit L2
      · intro hcontra
        exact absurd hcontra (by simp)
      · rw [g_event]
        split <;> simp [hC1event]
      · rw [g_state]
        split <;> simp [hC1state]

/-- Claim C1 (amended): when the outdated sub-rectangle list of a
non-discard buffer requirement contains a rectangle with no update-source
candidate (every rectangle before it having candidates), the scheduler
registers the data-source error and invokes cancel on the requirement
node: the requirement ends cancelled when the failing rectangle comes
first (no copy was dispatched for it yet), and remains submitted when a
copy for an earlier outdated rectangle was already dispatched.  Either
way requirement resolution returns success, so the enclosing submission
is not cancelled: the node's own operation is still dispatched, the node
is registered as submitted, and submit returns normally. -/
theorem C1_amended_no_data_source (env : runtime_env) (s : scheduler_state)
    (rid : Nat) (br : buffer_mem_req) (target : device_id) (ptr e : Nat)
    (pre : List rect) (r0 : rect) (rest : List rect)
    (h_op : (s.nodes rid).operation = operation.buffer_req br)
    (h_state : state_is_submitted ((s.nodes rid).state) = false)
    (h_dev : (s.nodes rid).assigned_device = some target)
    (h_event : (s.nodes rid).event = none)
    (h_mode1 : br.mode ≠ sycl_access_mode.discard_write)
    (h_mode2 : br.mode ≠ sycl_access_mode.discard_read_write)
    (h_alloc : (s.regions br.data_region_id).allocations target = some ptr)
    (h_exec : env.get_executor target.backend target = some e)
    (h_out : get_outdated_regions (s.regions br.data_region_id) target
        br.offset br.range = pre ++ r0 :: rest)
    (h_pre_src : ∀ r ∈ pre, get_update_source_candidates env.devices
        (s.regions br.data_region_id) target r ≠ [])
    (h_nosrc : get_update_source_candidates env.devices
        (s.regions br.data_region_id) target r0 = []) :
    ∃ s', submit_requirement env s rid = some (s', result.success) ∧
      s'.errors = s.errors ++ [no_data_source_info] ∧
      (pre = [] → (s'.nodes rid).state = node_state.cancelled ∧
        s'.dispatched = s.dispatched) ∧
      (pre ≠ [] → (s'.nodes rid).state = node_state.submitted) ∧
      s'.registry = s.registry := by
  have h_ensure : ensure_allocation_exists env s br target = (s, result.success) := by
    unfold ensure_allocation_exists
    rw [if_pos]
    unfold has_allocation
    rw [h_alloc]
    rfl
  obtain ⟨hs2state, hs2event, hs2dev, _⟩ :=
    initialize_memory_access_preserves s rid target rid
  have hs2op := initialize_memory_access_operation s rid target br h_op
  obtain ⟨sC, hsplit, c_reg, c_err, c_registry, c_nil, c_dev, c_event, c_state⟩ :=
    materialize_copies_prefix env rid br.data_region_id target e h_exec pre
      (initialize_memory_access s rid target) result.success
      (by rw [hs2dev]; exact h_dev)
      (by rw [hs2state]; exact (unsubmitted_not_terminal _ h_state).1)
      (by rw [hs2state]; exact (unsubmitted_not_terminal _ h_state).2)
      (by
        intro r hr
        rw [initialize_memory_access_regions]
        exact h_pre_src r hr)
  have h_mat : materialize_copies (submit_req_handler env rid) env rid
      br.data_region_id target (pre ++ r0 :: rest)
      (initialize_memory_access s rid target, result.success) =
      some (update_node (register_error sC no_data_source_info) rid cancel_node,
        result.success) := by
    rw [hsplit (r0 :: rest), materialize_copies]
    have hc : get_update_source_candidates env.devices
        (sC.regions br.data_region_id) target r0 = [] := by
      rw [c_reg, initialize_memory_access_regions]
      exact h_nosrc
    simp only [hc]
  have h_for : for_each_explicit_operation (submit_req_handler env rid) env rid
      (initialize_memory_access s rid target, result.success) =
      some (update_node (register_error sC no_data_source_info) rid cancel_node,
        result.success) := by
    simp only [for_each_explicit_operation, hs2state, h_state, hs2op,
      is_requirement, as_buffer_requirement, Bool.not_true, if_false,
      Bool.false_eq_true, hs2dev, h_dev, Option.getD_some,
      initialize_memory_access_regions, h_out]
    exact h_mat
  have hs3node : ((update_node (register_error sC no_data_source_info) rid
      cancel_node).nodes rid) = cancel_node (sC.nodes rid) := by
    rw [update_node_nodes_same, register_error_nodes]
  have hs3event : ((update_node (register_error sC no_data_source_info) rid
      cancel_node).nodes rid).event = (sC.nodes rid).event := by
    rw [hs3node, cancel_node_event]
  by_cases hpre : pre = []
  · have hsc : sC = initialize_memory_access s rid target := c_nil hpre
    have hev3 : ((update_node (register_error sC no_data_source_info) rid
        cancel_node).nodes rid).event = none := by
      rw [hs3event, c_event, if_pos hpre, hs2event, h_event]
    have hstate3 : ((update_node (register_error sC no_data_source_info) rid
        cancel_node).nodes rid).state = node_state.cancelled := by
      rw [hs3node]
      apply cancel_node_state_of_unsubmitted
      rw [c_state, if_pos hpre, hs2state]
      exact h_state
    have heq : submit_requirement env s rid =
        some (update_node (update_node (register_error sC no_data_source_info)
          rid cancel_node) rid mark_virtually_submitted, result.success) := by
      simp only [submit_requirement, h_op, h_state, is_requirement,
        as_buffer_requirement, Bool.not_true, Bool.false_or, Bool.false_eq_true,
        if_false, h_dev, Option.getD_some, h_ensure, is_success]
      rw [if_pos (And.intro h_mode1 h_mode2), h_for]
      simp only [is_success, Bool.not_true, Bool.false_eq_true, if_false]
      rw [if_pos hev3]
    refine ⟨_, heq, ?_, ?_, ?_, ?_⟩
    · show sC.errors ++ [no_data_source_info] = s.errors ++ [no_data_source_info]
      rw [show sC.errors = s.errors from c_err]
    · intro _
      constructor
      · rw [update_node_nodes_same]
        rw [mark_virtually_submitted_of_submitted _ (by rw [hstate3]; rfl)]
        exact hstate3
      · show sC.dispatched = s.dispatched
        rw [hsc]
        rfl
    · intro hcontra
      exact absurd hpre hcontra
    · show sC.registry = s.registry
      exact c_registry
  · have hev3 : ((update_node (register_error sC no_data_source_info) rid
        cancel_node).nodes rid).event = some node_event.pending := by
      rw [hs3event, c_event, if_neg hpre]
    have hcsub : state_is_submitted ((sC.nodes rid).state) = true := by
      rw [c_state, if_neg hpre]
      rfl
    have hstate3 : ((update_node (register_error sC no_data_source_info) rid
        cancel_node).nodes rid).state = node_state.submitted := by
      rw [hs3node]
      rw [show cancel_node (sC.nodes rid) = sC.nodes rid from
        by rw [cancel_node, if_pos hcsub]]
      rw [c_state, if_neg hpre]
    have hmain : (if br.mode = sycl_access_mode.read then
        submit_requirement env s rid = some (update_region (update_node
          (register_error sC no_data_source_info) rid cancel_node)
          br.data_region_id
          (fun r => mark_range_valid r target br.offset br.range),
          result.success)
      else
        submit_requirement env s rid = some (update_region (update_node
          (register_error sC no_data_source_info) rid cancel_node)
          br.data_region_id
          (fun r => mark_range_current r target br.offset br.range),
          result.success)) := by
      simp only [submit_requirement, h_op, h_state, is_requirement,
        as_buffer_requirement, Bool.not_true, Bool.false_or, Bool.false_eq_true,
        if_false, h_dev, Option.getD_some, h_ensure, is_success]
      rw [if_pos (And.intro h_mode1 h_mode2), h_for]
      simp only [is_success, Bool.not_true, Bool.false_eq_true, if_false]
      have hnev : ¬ (((update_node (register_error sC no_data_source_info) rid
          cancel_node).nodes rid).event = none) := by
        rw [hev3]
        simp
      rw [if_neg hnev]
      split
      · rfl
      · rfl
    by_cases hread : br.mode = sycl_access_mode.read
    · rw [if_pos hread] at hmain
      refine ⟨_, hmain, ?_, ?_, ?_, ?_⟩
      · show sC.errors ++ [no_data_source_info] = s.errors ++ [no_data_source_info]
        rw [show sC.errors = s.errors from c_err]
      · intro hcontra
        exact absurd hcontra hpre
      · intro _
        exact hstate3
      · show sC.registry = s.registry
        exact c_registry
    · rw [if_neg hread] at hmain
      refine ⟨_, hmain, ?_, ?_, ?_, ?_⟩
      · show sC.errors ++ [no_data_source_info] = s.errors ++ [no_data_source_info]
        rw [show sC.errors = s.errors from c_err]
      · intro hcontra
        exact absurd hcontra hpre
      · intro _
        exact hstate3
      · show sC.registry = s.registry
        exact c_registry

/-- Witness for the amended C1 at a concrete input (the failing rectangle
comes first, so the requirement ends cancelled). -/
theorem C1_amended_no_data_source_witness :
    ∃ s', submit_requirement test_env state_c1w 1 = some (s', result.success) ∧
      s'.errors = state_c1w.errors ++ [no_data_source_info] ∧
      (([] : List rect) = [] → (s'.nodes 1).state = node_state.cancelled ∧
        s'.dispatched = state_c1w.dispatched) ∧
      (([] : List rect) ≠ [] → (s'.nodes 1).state = node_state.submitted) ∧
      s'.registry = state_c1w.registry :=
  C1_amended_no_data_source test_env state_c1w 1
    ⟨0, sycl_access_mode.read, (0, 0, 0), (1, 1, 1), none⟩ dev2 500 1 []
    ((0, 0, 0), (1, 1, 1)) [] (by decide) (by decide) (by decide) (by decide)
    (by decide) (by decide) (by decide) (by decide) (by decide) (by decide)
    (by decide)

end rt

end hipsycl
